import Mathlib

/-!
Verification of the `topologyviewer` repository: a shallow embedding of the
NBAPI blob resolver (`nbapi.py:marshall_nbapi_blob`), the EasyMesh data model
(`easymesh.py`), the persistent history store (`nbapi_persistent.py`), the
resolved-topology accessors (`topology.py`) and the path parser
(`path_parser.py`), together with theorems settling the frozen claims.

Modelling conventions:
* JSON scalar parameter values are modelled by `TV.Value` (ints and strings);
  the claims only involve scalar-valued parameters.  Python dicts of
  parameters are association lists with first-match lookup and
  replace-in-place update, mirroring CPython dict semantics (insertion order,
  overwrite keeps position).
* Python exceptions (KeyError, NameError, AttributeError, IndexError,
  TypeError) are modelled with `Except TV.PyErr`.
* NBAPI path strings such as "Device.WiFi.DataElements.Network." are modelled
  by their `split('.')` token lists (`TV.NBPath`); a path ending in a dot ends
  in the empty token.  For such paths Python's `str.startswith` coincides with
  token-list prefix after dropping the trailing empty token, and the anchored
  regexes of `nbapi.py` become suffix patterns on the token list.
* Python objects that are aliased and mutated (Agents and Interfaces) live in
  an explicit heap (`TV.Heap`) and are referred to by numeric ids; objects
  that are created fresh per owner and never mutated through an alias
  (Radios, BSSes, Neighbors, Stations) are stored by value in their owner.
* The write-only "mirror" parameter keys that the Python constructors install
  purely for display (`params['STA(s)']`, `params['children']`,
  `params['neighbors']`, `params['BSS']`, `params['Radios']`,
  `params['Interfaces']`) are never read back by any embedded operation and
  are omitted from the params model; the object-level lists they mirror are
  modelled in full.
* Python `list.sort(key=...)` (timsort) is stable and raises `TypeError` as
  soon as an int is compared with a str; for a list of length at least two
  holding keys of both kinds some adjacent pair is mixed and is compared
  during run detection, so the model raises `TypeError` exactly when the key
  list is mixed and has length at least two, and otherwise produces the
  unique stable sort.
-/

namespace TV

/-- Python exceptions that the embedded code can raise. -/
inductive PyErr where
  | keyError (k : String)
  | nameError
  | typeError
  | attributeError
  | indexError
deriving DecidableEq, Repr

/-- Scalar JSON values appearing in NBAPI parameter dicts. -/
inductive Value where
  | vInt (i : Int)
  | vStr (s : String)
deriving DecidableEq, Repr

/-- Python truthiness of a scalar value: `0` and `""` are falsy. -/
def pyTruthy : Value → Bool
  | .vInt i => i != 0
  | .vStr s => s != ""

/-- A parameter dict: association list, first match wins. -/
abbrev Params := List (String × Value)

/-- Python `d.get(k)` / `k in d` style lookup (first match wins). -/
def paramsGet? : Params → String → Option Value
  | [], _ => none
  | kv :: rest, k => if kv.1 == k then some kv.2 else paramsGet? rest k

/-- Python `d[k]`: raises `KeyError` when the key is absent. -/
def paramsGetE (ps : Params) (k : String) : Except PyErr Value :=
  match paramsGet? ps k with
  | some v => .ok v
  | none => .error (.keyError k)

/-- Python `d[k] = v`: replace in place when present, else append. -/
def paramsSet (ps : Params) (k : String) (v : Value) : Params :=
  match ps with
  | [] => [(k, v)]
  | kv :: rest =>
    if kv.1 == k then (k, v) :: rest else kv :: paramsSet rest k v

/-- A lookup with a default, as in `if k in d: d[k] else dflt`. -/
def paramsGetD (ps : Params) (k : String) (dflt : Value) : Value :=
  match paramsGet? ps k with
  | some v => v
  | none => dflt

/-- NBAPI path, as the `split('.')` token list of the Python path string. -/
abbrev NBPath := List String

/-- The Python path string a token list denotes (tokens joined by dots). -/
def pathStr : NBPath → String
  | [] => ""
  | [t] => t
  | t :: rest => t ++ "." ++ pathStr rest

/-- Python `path.startswith(pre)` for a `pre` that ends in a dot: token-list
prefix after dropping the trailing empty token of `pre`. -/
def pathStartsWith (path pre : NBPath) : Bool := List.isPrefixOf pre.dropLast path

/-- Token of one to ten decimal digits, the `\d{1,10}` of the path regexes. -/
def isDigitsToken (s : String) : Bool :=
  decide (1 ≤ s.toList.length) && decide (s.toList.length ≤ 10) &&
    s.toList.all (fun c => decide ('0' ≤ c) && decide (c ≤ '9'))

/-- Python `re.search(r"\.SEG\.\d{1,10}\.$", path)`: the token list ends with
`[SEG, digits, ""]` and something precedes the dot before `SEG`. -/
def matchSegIdx (seg : String) (p : NBPath) : Bool :=
  match p.reverse with
  | "" :: d :: s :: rest => s == seg && isDigitsToken d && !rest.isEmpty
  | _ => false

/-- Python `re.search(r"\.Network\.$", path)` on the token list. -/
def matchNetworkPath (p : NBPath) : Bool :=
  match p.reverse with
  | "" :: s :: rest => s == "Network" && !rest.isEmpty
  | _ => false

/-- Python `re.search(r"\.MultiAPDevice\.Backhaul\.$", path)` on the token list. -/
def matchBackhaulPath (p : NBPath) : Bool :=
  match p.reverse with
  | "" :: b :: m :: rest => b == "Backhaul" && m == "MultiAPDevice" && !rest.isEmpty
  | _ => false

/-- `Interface.get_interface_number`: `self.path[-2::][0]`, the second-to-last
character of the path string (or its only character; `IndexError` if empty). -/
def interfaceNumberChar (p : NBPath) : Except PyErr Char :=
  match (pathStr p).toList.reverse with
  | [] => .error .indexError
  | [c] => .ok c
  | _ :: c :: _ => .ok c

/-! ### Generic association lists over `Value` keys

Python dict semantics for the persistent-store dicts, whose keys are whatever
values the params held (station MACs, radio UIDs). -/

/-- Dict lookup, `d.get(k)` (first match wins). -/
def assocGet? {β : Type} : List (Value × β) → Value → Option β
  | [], _ => none
  | kv :: rest, k => if kv.1 == k then some kv.2 else assocGet? rest k

/-- Dict membership, `k in d`. -/
def assocMem {β : Type} (l : List (Value × β)) (k : Value) : Bool :=
  (assocGet? l k).isSome

/-- Dict update `d[k] = v`: replace in place when present, else append. -/
def assocSet {β : Type} (l : List (Value × β)) (k : Value) (v : β) : List (Value × β) :=
  match l with
  | [] => [(k, v)]
  | kv :: rest => if kv.1 == k then (k, v) :: rest else kv :: assocSet rest k v

/-- Dict deletion `del d[k]`: removes the first (unique) binding of `k`. -/
def assocDel {β : Type} (l : List (Value × β)) (k : Value) : List (Value × β) :=
  match l with
  | [] => []
  | kv :: rest => if kv.1 == k then rest else kv :: assocDel rest k

/-! ### `nbapi_persistent.py`: the persistent history store -/

/-- The module-level globals of `nbapi_persistent.py`:
`g_StationsThatHaveMoved`, `g_StationsToRadio` and `g_RSSI_Measurements`
(RUID -> STA MAC -> list of RSSI measurements). -/
structure PState where
  stationsThatHaveMoved : List Value
  stationsToRadio : List (Value × Value)
  rssiMeasurements : List (Value × List (Value × List Value))
deriving DecidableEq, Repr

/-- The empty store (module load state). -/
def PState.empty : PState := ⟨[], [], []⟩

/-- `handle_station_has_moved`: append the MAC to the moved list, then drop
the MAC's binding from the station-to-radio dict if present. -/
def handle_station_has_moved (ps : PState) (sta_mac : Value) (_ruid : Value) : PState :=
  { ps with
    stationsThatHaveMoved := ps.stationsThatHaveMoved ++ [sta_mac],
    stationsToRadio :=
      if assocMem ps.stationsToRadio sta_mac then assocDel ps.stationsToRadio sta_mac
      else ps.stationsToRadio }

/-- `get_stations_that_have_moved`: returns the module-level list itself (the
assignment makes an alias, not a copy) and performs no state change. -/
def get_stations_that_have_moved (ps : PState) : List Value × PState :=
  (ps.stationsThatHaveMoved, ps)

/-- `get_did_station_move`: true iff the MAC is in the moved list; when it is,
`list.remove` drops its first occurrence. -/
def get_did_station_move (ps : PState) (sta_mac : Value) : Bool × PState :=
  if sta_mac ∈ (get_stations_that_have_moved ps).1 then
    (true, { ps with stationsThatHaveMoved := ps.stationsThatHaveMoved.erase sta_mac })
  else
    (false, ps)

/-- `station_has_undergone_move`: `sta_mac in g_StationsToRadio and
g_StationsToRadio[sta_mac] != ruid`. -/
def station_has_undergone_move (ps : PState) (sta_mac ruid : Value) : Bool :=
  assocMem ps.stationsToRadio sta_mac &&
    match assocGet? ps.stationsToRadio sta_mac with
    | some r => r != ruid
    | none => false

/-- `register_station_to_radio`: `g_StationsToRadio[sta_mac] = ruid`. -/
def register_station_to_radio (ps : PState) (sta_mac ruid : Value) : PState :=
  { ps with stationsToRadio := assocSet ps.stationsToRadio sta_mac ruid }

/-- `add_new_signal_strength_measurement`: initialize the nested dicts when
absent, then append the measurement to `g_RSSI_Measurements[ruid][sta_mac]`. -/
def add_new_signal_strength_measurement (ps : PState) (sta_mac ruid rssi : Value) : PState :=
  let perRuid := match assocGet? ps.rssiMeasurements ruid with
    | some d => d
    | none => []
  let series := match assocGet? perRuid sta_mac with
    | some l => l
    | none => []
  { ps with rssiMeasurements :=
      assocSet ps.rssiMeasurements ruid (assocSet perRuid sta_mac (series ++ [rssi])) }

/-- `clear_all_signal_strength_measurements`: `g_RSSI_Measurements.clear()`. -/
def clear_all_signal_strength_measurements (ps : PState) : PState :=
  { ps with rssiMeasurements := [] }

/-- Convenience reading of the series stored for `(ruid, sta_mac)` ( `[]` when
absent), used to state the claims about the store. -/
def rssiSeries (ps : PState) (ruid sta_mac : Value) : List Value :=
  match assocGet? ps.rssiMeasurements ruid with
  | some d =>
    match assocGet? d sta_mac with
    | some l => l
    | none => []
  | none => []

/-! ### `easymesh.py`: the data model -/

/-- The `ORIENTATION` enum. -/
inductive ORIENTATION where
  | RIGHT
  | UP
  | DOWN
deriving DecidableEq, Repr

/-- The `mediaType_to_str` lookup table, byte for byte as in `easymesh.py`
(note the mixed int and string keys of the Python dict). -/
def mediaType_to_str : List (Value × String) :=
  [ (.vInt 0x0, "Fast Ethernet"),
    (.vStr "IEEE_802_3AB_GIGABIT_ETHERNET", "Gigabit Ethernet"),
    (.vInt 0x100, "B 2.4GHz"),
    (.vInt 0x101, "G 2.4GHz"),
    (.vInt 0x102, "A 5 GHz"),
    (.vStr "IEEE_802_11N_2_4_GHZ", "N 2.4 GHz"),
    (.vInt 0x104, "N 5 GHz"),
    (.vStr "IEEE_802_11AX", "AC 5 GHz"),
    (.vInt 0x106, "AD 60 GHz"),
    (.vInt 0x107, "AF"),
    (.vInt 0x108, "AX"),
    (.vInt 0x200, "IEEE_1901_WAVELET"),
    (.vInt 0x201, "IEEE_1901_FFT"),
    (.vInt 0x300, "MOCA_V1_1"),
    (.vInt 0xffff, "UNKNOWN_MEDIA") ]

/-- A `Station` object (the display coordinates `x`, `y` are never read by any
embedded operation and are omitted). -/
structure Station where
  path : NBPath
  params : Params
  is_steered : Bool
deriving DecidableEq, Repr

/-- `Station.__init__`. -/
def mkStation (path : NBPath) (params : Params) : Station :=
  ⟨path, params, false⟩

/-- `Station.get_mac`: the `MACAddress` parameter, or `''`. -/
def Station.get_mac (s : Station) : Value :=
  paramsGetD s.params "MACAddress" (.vStr "")

/-- `Station.get_rssi`: `RSSI`, else `SignalStrength`, else `RCPI`, else -127. -/
def Station.get_rssi (s : Station) : Value :=
  match paramsGet? s.params "RSSI" with
  | some v => v
  | none =>
    match paramsGet? s.params "SignalStrength" with
    | some v => v
    | none =>
      match paramsGet? s.params "RCPI" with
      | some v => v
      | none => .vInt (-127)

/-- `Station.set_steered`. -/
def Station.set_steered (s : Station) (b : Bool) : Station :=
  { s with is_steered := b }

/-- A `Neighbor` object. -/
structure Neighbor where
  path : NBPath
  params : Params
deriving DecidableEq, Repr

/-- A `BSS` object; `interface` is a heap reference to an `Interface`
(`none` models the `{}` placeholder set by `BSS.__init__`). -/
structure BSS where
  path : NBPath
  params : Params
  interface : Option Nat
  connected_stations : List Station
deriving DecidableEq, Repr

/-- `BSS.__init__` (the write-only `params['STA(s)']` mirror is omitted). -/
def mkBSS (path : NBPath) (params : Params) : BSS :=
  ⟨path, params, none, []⟩

/-- `BSS.add_connected_station`. -/
def BSS.add_connected_station (b : BSS) (sta : Station) : BSS :=
  { b with connected_stations := b.connected_stations ++ [sta] }

/-- `BSS.get_bssid`: the `BSSID` parameter, or `''`. -/
def BSS.get_bssid (b : BSS) : Value :=
  paramsGetD b.params "BSSID" (.vStr "")

/-- A `Radio` object; its BSSes are created fresh per radio and owned. -/
structure Radio where
  path : NBPath
  params : Params
  bsses : List BSS
deriving DecidableEq, Repr

/-- `Radio.__init__` (the write-only `params['BSS']` mirror is omitted). -/
def mkRadio (path : NBPath) (params : Params) : Radio :=
  ⟨path, params, []⟩

/-- `Radio.get_ruid`: the `ID` parameter, or `''`. -/
def Radio.get_ruid (r : Radio) : Value :=
  paramsGetD r.params "ID" (.vStr "")

/-- `Radio.add_bss`. -/
def Radio.add_bss (r : Radio) (b : BSS) : Radio :=
  { r with bsses := r.bsses ++ [b] }

/-- An `Interface` object; `children` are heap references to other
interfaces, `parentAgent` a heap reference to an agent (`none` models the
`{}` placeholder). -/
structure Interface where
  path : NBPath
  params : Params
  neighbors : List Neighbor
  children : List Nat
  parentAgent : Option Nat
  connected_stations : List Station
  orientation : ORIENTATION
deriving DecidableEq, Repr

/-- `Interface.__init__`: installs `MediaTypeString` from the lookup table
("Unknown" when absent), then classifies: wireless iff the `MediaType` value
is the string `IEEE_802_11N_2_4_GHZ` or `IEEE_802_11AX`, else wired.
Raises `KeyError` when the record has no `MediaType`. -/
def mkInterface (path : NBPath) (params : Params) : Except PyErr Interface := do
  let mt ← paramsGetE params "MediaType"
  let mtStr := match assocGet? mediaType_to_str mt with
    | some s => s
    | none => "Unknown"
  let ps1 := paramsSet params "MediaTypeString" (.vStr mtStr)
  let ps2 :=
    if mt == .vStr "IEEE_802_11N_2_4_GHZ" || mt == .vStr "IEEE_802_11AX" then
      paramsSet (paramsSet ps1 "wired" (.vInt 0)) "wireless" (.vInt 1)
    else
      paramsSet (paramsSet ps1 "wired" (.vInt 1)) "wireless" (.vInt 0)
  pure ⟨path, ps2, [], [], none, [], .RIGHT⟩

/-- `Interface.get_mac`: `self.params['MACAddress']`, raising `KeyError`. -/
def Interface.get_macE (i : Interface) : Except PyErr Value :=
  paramsGetE i.params "MACAddress"

/-- An `Agent` object; interfaces and child agents are heap references. -/
structure Agent where
  path : NBPath
  params : Params
  isController : Bool
  radios : List Radio
  interfaces : List Nat
  children : List Nat
  connected_stations : List Station
deriving DecidableEq, Repr

/-- `Agent.__init__` (mirror params and display coordinates omitted). -/
def mkAgent (path : NBPath) (params : Params) : Agent :=
  ⟨path, params, false, [], [], [], []⟩

/-- `Agent.get_id`: the `ID` parameter, or `''`. -/
def Agent.get_id (a : Agent) : Value :=
  paramsGetD a.params "ID" (.vStr "")

/-! ### The heap of aliased, mutated objects -/

/-- The heap holds every allocated `Agent` and `Interface`; ids are list
positions. -/
structure Heap where
  agents : List Agent
  ifaces : List Interface
deriving DecidableEq, Repr

/-- Placeholder agent used by the total heap getter (never reachable from
well-formed ids). -/
def Agent.dummy : Agent := mkAgent [] []

/-- Placeholder interface used by the total heap getter. -/
def Interface.dummy : Interface := ⟨[], [], [], [], none, [], .RIGHT⟩

/-- Read an agent from the heap. -/
def getAgent (h : Heap) (i : Nat) : Agent := h.agents.getD i Agent.dummy

/-- Read an interface from the heap. -/
def getIface (h : Heap) (i : Nat) : Interface := h.ifaces.getD i Interface.dummy

/-- Overwrite an agent in the heap. -/
def setAgent (h : Heap) (i : Nat) (a : Agent) : Heap :=
  { h with agents := h.agents.set i a }

/-- Overwrite an interface in the heap. -/
def setIface (h : Heap) (i : Nat) (x : Interface) : Heap :=
  { h with ifaces := h.ifaces.set i x }

/-- Mutate an agent in place. -/
def updAgent (h : Heap) (i : Nat) (f : Agent → Agent) : Heap :=
  setAgent h i (f (getAgent h i))

/-- Mutate an interface in place. -/
def updIface (h : Heap) (i : Nat) (f : Interface → Interface) : Heap :=
  setIface h i (f (getIface h i))

/-- Allocate a fresh agent, returning its id. -/
def allocAgent (h : Heap) (a : Agent) : Heap × Nat :=
  ({ h with agents := h.agents ++ [a] }, h.agents.length)

/-- Allocate a fresh interface, returning its id. -/
def allocIface (h : Heap) (x : Interface) : Heap × Nat :=
  ({ h with ifaces := h.ifaces ++ [x] }, h.ifaces.length)

/-! ### Python `list.sort(key=...)` -/

/-- Key comparison for same-kind keys; mixed kinds are handled by the caller. -/
def valueLtB : Value → Value → Bool
  | .vInt a, .vInt b => a < b
  | .vStr a, .vStr b => a < b
  | _, _ => false

/-- All keys ints, or all keys strings (the condition under which timsort
completes without a cross-type comparison). -/
def keysHomogeneous (ks : List Value) : Bool :=
  ks.all (fun k => match k with | .vInt _ => true | _ => false) ||
  ks.all (fun k => match k with | .vStr _ => true | _ => false)

/-- Insert a keyed element before the first strictly greater key (keeps equal
keys in encounter order, giving a stable sort). -/
def insKeyed {α : Type} (p : Value × α) : List (Value × α) → List (Value × α)
  | [] => [p]
  | q :: qs => if valueLtB p.1 q.1 then p :: q :: qs else q :: insKeyed p qs

/-- Stable insertion sort of keyed elements. -/
def stableSortKeyed {α : Type} (l : List (Value × α)) : List (Value × α) :=
  l.foldl (fun acc p => insKeyed p acc) []

/-- Python `items.sort(key=getKey)`: the key function runs once per element
(raising like Python's), then timsort sorts stably, raising `TypeError` when
int and str keys are both present and a comparison is made (length ≥ 2). -/
def pyKeyedSort {α : Type} (items : List α) (getKey : α → Except PyErr Value) :
    Except PyErr (List α) := do
  let keys ← items.mapM getKey
  if items.length ≤ 1 then
    pure items
  else if keysHomogeneous keys then
    pure ((stableSortKeyed (keys.zip items)).map (fun p => p.2))
  else
    .error .typeError

/-! ### Heap-level methods of `Interface` and `Agent` -/

/-- Walk a child-id list comparing `child.params['MACAddress']` with `mac`,
returning early on a match: the common body of `Interface.is_child` and
`Interface.has_child_iface` (both read the child's `MACAddress`, raising
`KeyError` when absent). -/
def ifaceChildScan (h : Heap) (mac : Value) : List Nat → Except PyErr Bool
  | [] => .ok false
  | cid :: rest => do
    let m ← paramsGetE (getIface h cid).params "MACAddress"
    if m == mac then pure true else ifaceChildScan h mac rest

/-- `Interface.is_child` / `Interface.has_child_iface`. -/
def ifaceIsChild (h : Heap) (ifid : Nat) (mac : Value) : Except PyErr Bool :=
  ifaceChildScan h mac (getIface h ifid).children

/-- `Agent.is_child`: ORs `is_child` over all interfaces without early exit
(matching the Python loop, which keeps evaluating after a hit). -/
def agentIsChildScan (h : Heap) (mac : Value) : List Nat → Bool → Except PyErr Bool
  | [], acc => .ok acc
  | ifid :: rest, acc => do
    let b ← ifaceIsChild h ifid mac
    agentIsChildScan h mac rest (acc || b)

/-- `Agent.is_child`. -/
def agentIsChild (h : Heap) (aid : Nat) (mac : Value) : Except PyErr Bool :=
  agentIsChildScan h mac (getAgent h aid).interfaces false

/-- `Agent.add_radio` (mirror omitted). -/
def agentAddRadio (h : Heap) (aid : Nat) (r : Radio) : Heap :=
  updAgent h aid (fun a => { a with radios := a.radios ++ [r] })

/-- `Agent.add_interface`: append, then `interfaces.sort(key=wired param)`. -/
def agentAddInterface (h : Heap) (aid ifid : Nat) : Except PyErr Heap := do
  let a := getAgent h aid
  let sorted ← pyKeyedSort (a.interfaces ++ [ifid])
    (fun i => paramsGetE (getIface h i).params "wired")
  pure (setAgent h aid { a with interfaces := sorted })

/-- `Agent.add_child`: append a child agent, then sort children by
`get_id()`. -/
def agentAddChildAgent (h : Heap) (aid childAid : Nat) : Except PyErr Heap := do
  let a := getAgent h aid
  let sorted ← pyKeyedSort (a.children ++ [childAid])
    (fun i => pure (Agent.get_id (getAgent h i)))
  pure (setAgent h aid { a with children := sorted })

/-- `Agent.add_connected_station`. -/
def agentAddConnectedStation (h : Heap) (aid : Nat) (sta : Station) : Heap :=
  updAgent h aid (fun a => { a with connected_stations := a.connected_stations ++ [sta] })

/-- `Interface.add_neighbor`: append, then sort neighbors by
`params['ID']` (raising `KeyError` when a neighbor lacks `ID`). -/
def ifaceAddNeighbor (h : Heap) (ifid : Nat) (nb : Neighbor) : Except PyErr Heap := do
  let i := getIface h ifid
  let sorted ← pyKeyedSort (i.neighbors ++ [nb]) (fun n => paramsGetE n.params "ID")
  pure (setIface h ifid { i with neighbors := sorted })

/-- `Interface.add_connected_station`: first
`self.parentAgent.add_connected_station(station)` (AttributeError on the `{}`
placeholder), then append to the interface's own list. -/
def ifaceAddConnectedStation (h : Heap) (ifid : Nat) (sta : Station) : Except PyErr Heap :=
  match (getIface h ifid).parentAgent with
  | none => .error .attributeError
  | some paid =>
    let h1 := agentAddConnectedStation h paid sta
    .ok (updIface h1 ifid (fun i => { i with connected_stations := i.connected_stations ++ [sta] }))

/-- Set the `orientation` attribute of an interface. -/
def ifaceSetOrientation (h : Heap) (ifid : Nat) (o : ORIENTATION) : Heap :=
  updIface h ifid (fun i => { i with orientation := o })

/-- The media-type coercion block of `Interface.add_child` (`easymesh.py`
lines 471-481), given the already-read truthiness scrutinee
`self.params["wireless"]`: when exactly one of the two linked interfaces is
classified wireless, the other is coerced to the classification of the
*wireless* one (`MediaTypeString`, `wired`, `wireless` copied in that
order).  Short-circuit evaluation of the two conditions is modelled exactly,
so `KeyError`s surface in Python's order. -/
def ifaceCoerceMedia (h : Heap) (selfId childId : Nat) (sw : Value) : Except PyErr Heap :=
  if pyTruthy sw then do
    let cw ← paramsGetE (getIface h childId).params "wireless"
    if !pyTruthy cw then do
      let smts ← paramsGetE (getIface h selfId).params "MediaTypeString"
      let h1 := updIface h childId (fun c => { c with params := paramsSet c.params "MediaTypeString" smts })
      let swired ← paramsGetE (getIface h1 selfId).params "wired"
      let h2 := updIface h1 childId (fun c => { c with params := paramsSet c.params "wired" swired })
      let sw2 ← paramsGetE (getIface h2 selfId).params "wireless"
      pure (updIface h2 childId (fun c => { c with params := paramsSet c.params "wireless" sw2 }))
    else pure h
  else do
    let cw ← paramsGetE (getIface h childId).params "wireless"
    if pyTruthy cw && !pyTruthy sw then do
      let cmts ← paramsGetE (getIface h childId).params "MediaTypeString"
      let h1 := updIface h selfId (fun s => { s with params := paramsSet s.params "MediaTypeString" cmts })
      let cwired ← paramsGetE (getIface h1 childId).params "wired"
      let h2 := updIface h1 selfId (fun s => { s with params := paramsSet s.params "wired" cwired })
      let cw2 ← paramsGetE (getIface h2 childId).params "wireless"
      pure (updIface h2 selfId (fun s => { s with params := paramsSet s.params "wireless" cw2 }))
    else pure h

/-- `Interface.add_child` (`easymesh.py` lines 465-486): run the coercion
block, then append the child and sort the children by their `MACAddress`
parameter. -/
def ifaceAddChild (h : Heap) (selfId childId : Nat) : Except PyErr Heap := do
  let sw ← paramsGetE (getIface h selfId).params "wireless"
  let h' ← ifaceCoerceMedia h selfId childId sw
  let s' := getIface h' selfId
  let sorted ← pyKeyedSort (s'.children ++ [childId])
    (fun i => paramsGetE (getIface h' i).params "MACAddress")
  pure (setIface h' selfId { s' with children := sorted })

/-- Placeholder radio used by the total indexed getter. -/
def Radio.dummy : Radio := ⟨[], [], []⟩

/-- Placeholder BSS used by the total indexed getter. -/
def BSS.dummy : BSS := ⟨[], [], none, []⟩

/-- Read the `ridx`-th radio of an agent. -/
def getRadio (h : Heap) (aid ridx : Nat) : Radio :=
  (getAgent h aid).radios.getD ridx Radio.dummy

/-- Mutate the `ridx`-th radio of an agent in place. -/
def updRadio (h : Heap) (aid ridx : Nat) (f : Radio → Radio) : Heap :=
  updAgent h aid (fun a => { a with radios := a.radios.set ridx (f (a.radios.getD ridx Radio.dummy)) })

/-- Read the `bidx`-th BSS of the `ridx`-th radio of an agent. -/
def getBss (h : Heap) (aid ridx bidx : Nat) : BSS :=
  (getRadio h aid ridx).bsses.getD bidx BSS.dummy

/-- Mutate the `bidx`-th BSS of the `ridx`-th radio of an agent in place. -/
def updBss (h : Heap) (aid ridx bidx : Nat) (f : BSS → BSS) : Heap :=
  updRadio h aid ridx (fun r => { r with bsses := r.bsses.set bidx (f (r.bsses.getD bidx BSS.dummy)) })

/-! ### `topology.py`: the resolved Topology -/

/-- A `Topology` object.  `controller_id` is `none` for the `{}` placeholder
passed by the malformed-input branch, and `controller` is `none` for the `{}`
placeholder meaning "no controller found". -/
structure Topology where
  heap : Heap
  agentIds : List Nat
  controller_id : Option Value
  controller : Option Nat
deriving DecidableEq, Repr

/-- One step of the controller-marking loop of `Topology.__init__`. -/
def markControllerStep (cid : Option Value) (acc : Heap × Option Nat) (aid : Nat) :
    Heap × Option Nat :=
  let (h, ctrl) := acc
  let a := getAgent h aid
  match cid with
  | some c => if a.get_id == c then (setAgent h aid { a with isController := true }, some aid)
              else (h, ctrl)
  | none => (h, ctrl)

/-- `Topology.__init__`: record the agents, mark every agent whose id equals
`controller_id` as controller, remembering the last such agent. -/
def mkTopology (h : Heap) (ids : List Nat) (cid : Option Value) : Topology :=
  let hc := ids.foldl (markControllerStep cid) (h, none)
  ⟨hc.1, ids, cid, hc.2⟩

/-- The agent objects of the topology, in `agent_dict` order. -/
def Topology.agentsList (t : Topology) : List Agent :=
  t.agentIds.map (getAgent t.heap)

/-- `Topology.get_bsses`: every BSS across all radios on all agents. -/
def Topology.get_bsses (t : Topology) : List BSS :=
  t.agentsList.flatMap (fun a => a.radios.flatMap (fun r => r.bsses))

/-- `Topology.get_connections`: the `(bssid, station_mac)` pairs. -/
def Topology.get_connections (t : Topology) : List (Value × Value) :=
  t.agentsList.flatMap (fun a => a.radios.flatMap (fun r => r.bsses.flatMap
    (fun b => b.connected_stations.map (fun s => (b.get_bssid, s.get_mac)))))

/-- `Topology.get_stations`: every station connected to some BSS. -/
def Topology.get_stations (t : Topology) : List Station :=
  t.agentsList.flatMap (fun a => a.radios.flatMap (fun r => r.bsses.flatMap
    (fun b => b.connected_stations)))

/-- `Topology.get_num_connections_total`. -/
def Topology.get_num_connections_total (t : Topology) : Nat :=
  t.get_connections.length

/-- `Topology.get_controller`: the controller agent id, `None` otherwise. -/
def Topology.get_controller (t : Topology) : Option Nat := t.controller

/-- `Topology.get_ssid`: `controller.get_radios()[0].get_bsses()[0].params["SSID"]`
behind a truthiness test of `self.controller`; the indexings raise
`IndexError` on empty lists and the final lookup raises `KeyError`. -/
def Topology.get_ssid (t : Topology) : Except PyErr Value :=
  match t.controller with
  | none => .ok (.vStr "No SSID found")
  | some aid =>
    match (getAgent t.heap aid).radios with
    | [] => .error .indexError
    | r :: _ =>
      match r.bsses with
      | [] => .error .indexError
      | b :: _ => paramsGetE b.params "SSID"

/-! ### `nbapi.py`: `marshall_nbapi_blob`

The resolver walks the entry list once, threading its local state
(`agent_dict`, `iface_dict`, the `controller_id` local, and the persistent
globals of `nbapi_persistent.py`).  `controller_id` is an `Option`: `none`
models the local being unbound, so that reading it raises `NameError`
exactly where Python would. -/

/-- One NBAPI record: a JSON object with a `path` and a `parameters` dict
(records with scalar parameter values; the claims involve no others). -/
structure NBEntry where
  path : NBPath
  params : Params
deriving DecidableEq, Repr

/-- The top-level JSON input: either a list of records, or any non-list JSON
value (the code only tests `isinstance(nbapi_json, list)` on it). -/
inductive NBJson where
  | list (entries : List NBEntry)
  | nonList
deriving DecidableEq, Repr

/-- Dict update for the path-keyed local dicts (`agent_dict`, `iface_dict`):
overwrite keeps the key's position, new keys append. -/
def pdictSet (l : List (NBPath × Nat)) (k : NBPath) (v : Nat) : List (NBPath × Nat) :=
  match l with
  | [] => [(k, v)]
  | kv :: rest => if kv.1 == k then (k, v) :: rest else kv :: pdictSet rest k v

/-- `d.values()` in insertion order. -/
def pdictValues (l : List (NBPath × Nat)) : List Nat := l.map (fun kv => kv.2)

/-- The local state of one `marshall_nbapi_blob` call, plus the persistent
store. -/
structure MState where
  heap : Heap
  agentDict : List (NBPath × Nat)
  ifaceDict : List (NBPath × Nat)
  controllerId : Option Value
  pstate : PState
deriving DecidableEq, Repr

/-- The state at function entry. -/
def MState.init (ps : PState) : MState := ⟨⟨[], []⟩, [], [], none, ps⟩

/-- Error-propagating left fold, the shape of every loop in the resolver. -/
def foldE {σ α : Type} (f : σ → α → Except PyErr σ) : σ → List α → Except PyErr σ
  | s, [] => .ok s
  | s, a :: as =>
    match f s a with
    | .error e => .error e
    | .ok s' => foldE f s' as

/-- Reading the `controller_id` local: `NameError` while unbound. -/
def getControllerIdE (st : MState) : Except PyErr Value :=
  match st.controllerId with
  | some c => .ok c
  | none => .error .nameError

/-- Python `v <= 1` on a parameter value: `TypeError` for a string. -/
def pyLeOneE : Value → Except PyErr Bool
  | .vInt i => .ok (decide (i ≤ 1))
  | .vStr _ => .error .typeError

/-- Step 0: entries matching `\.Network\.$` bind `controller_id` from the
`ControllerID` parameter. -/
def stage0 (st : MState) (e : NBEntry) : Except PyErr MState :=
  if matchNetworkPath e.path then do
    let cid ← paramsGetE e.params "ControllerID"
    pure { st with controllerId := some cid }
  else pure st

/-- Step 1: entries matching `\.Device\.\d{1,10}\.$` allocate an Agent under
`agent_dict[path]` (overwrite allocates a fresh object). -/
def stage1 (st : MState) (e : NBEntry) : Except PyErr MState :=
  if matchSegIdx "Device" e.path then
    let ha := allocAgent st.heap (mkAgent e.path e.params)
    .ok { st with heap := ha.1, agentDict := pdictSet st.agentDict e.path ha.2 }
  else .ok st

/-- Step 2, body per agent: when the entry path extends the agent's path,
construct the Interface, set its parent, add it to the agent (sorting the
agent's interfaces by their `wired` param) and bind `iface_dict[path]`. -/
def stage2Step (path : NBPath) (params : Params) (st : MState) (aid : Nat) :
    Except PyErr MState :=
  if pathStartsWith path (getAgent st.heap aid).path then do
    let ifObj ← mkInterface path params
    let hi := allocIface st.heap { ifObj with parentAgent := some aid }
    let h2 ← agentAddInterface hi.1 aid hi.2
    pure { st with heap := h2, ifaceDict := pdictSet st.ifaceDict path hi.2 }
  else pure st

/-- Step 2: entries matching `\.Interface\.\d{1,10}\.$`. -/
def stage2 (st : MState) (e : NBEntry) : Except PyErr MState :=
  if matchSegIdx "Interface" e.path then
    foldE (stage2Step e.path e.params) st (pdictValues st.agentDict)
  else pure st

/-- The per-entry locals `controller_backhaul_interface` / `controller_agent`
(each `none` while still the `{}` placeholder). -/
abbrev BackhaulCtx := MState × Option Nat × Option Nat

/-- Step 3, body per interface of one agent: add the Neighbor (sorting
neighbors by `ID`), then mark the interface as the controller's backhaul when
the agent is the controller and the interface is Ethernet (`MediaType <= 1`,
a `TypeError` on string media types, after a `NameError` check on the
`controller_id` read). -/
def stage3IfaceStep (path : NBPath) (params : Params) (aid : Nat)
    (acc : BackhaulCtx) (ifid : Nat) : Except PyErr BackhaulCtx := do
  let st := acc.1
  let cbi := acc.2.1
  let cag := acc.2.2
  if pathStartsWith path (getIface st.heap ifid).path then do
    let h1 ← ifaceAddNeighbor st.heap ifid ⟨path, params⟩
    let st1 : MState := { st with heap := h1 }
    let cid ← getControllerIdE st1
    if (getAgent st1.heap aid).get_id == cid then do
      let mt ← paramsGetE (getIface st1.heap ifid).params "MediaType"
      let isEth ← pyLeOneE mt
      if isEth then
        pure ({ st1 with heap := ifaceSetOrientation st1.heap ifid .DOWN }, some ifid, some aid)
      else pure (st1, cbi, cag)
    else pure (st1, cbi, cag)
  else pure acc

/-- Step 3, body per agent. -/
def stage3AgentStep (path : NBPath) (params : Params) (acc : BackhaulCtx) (aid : Nat) :
    Except PyErr BackhaulCtx :=
  foldE (stage3IfaceStep path params aid) acc (getAgent acc.1.heap aid).interfaces

/-- Step 3: entries matching `\.Neighbor\.\d{1,10}\.$`; the per-entry locals
start as `{}` placeholders on every iteration. -/
def stage3 (st : MState) (e : NBEntry) : Except PyErr BackhaulCtx :=
  if matchSegIdx "Neighbor" e.path then
    foldE (stage3AgentStep e.path e.params) (st, none, none) (pdictValues st.agentDict)
  else pure (st, none, none)

/-- Inner scan of the default-backhaul block: first interface of the
controller with `MediaType <= 1` gets orientation DOWN (`break`). -/
def ethIfaceScan (st : MState) : List Nat → Except PyErr (MState × Option Nat)
  | [] => .ok (st, none)
  | ifid :: rest => do
    let mt ← paramsGetE (getIface st.heap ifid).params "MediaType"
    let isEth ← pyLeOneE mt
    if isEth then
      pure ({ st with heap := ifaceSetOrientation st.heap ifid .DOWN }, some ifid)
    else ethIfaceScan st rest

/-- Default-backhaul block, body per agent: every agent whose id equals
`controller_id` (read raising `NameError` while unbound) becomes
`controller_agent`, and its first Ethernet interface (if any) the backhaul. -/
def stage3bStep (acc : BackhaulCtx) (aid : Nat) : Except PyErr BackhaulCtx := do
  let st := acc.1
  let cbi := acc.2.1
  let cid ← getControllerIdE st
  if (getAgent st.heap aid).get_id == cid then do
    let r ← ethIfaceScan st (getAgent st.heap aid).interfaces
    pure (r.1, (match r.2 with | some x => some x | none => cbi), some aid)
  else pure acc

/-- Lines 76-85 of `nbapi.py`: executed on **every** entry; when no backhaul
interface was found by step 3 it walks all agents for the controller. -/
def stage3b (acc : BackhaulCtx) : Except PyErr BackhaulCtx :=
  match acc.2.1 with
  | some _ => pure acc
  | none => foldE stage3bStep acc (pdictValues acc.1.agentDict)

/-- Step 4, Ethernet branch, body per interface in `iface_dict`: interfaces
whose number is "1" (second-to-last path character) and differ from the
backhaul interface are linked as its children, and their parent agents as
children of `controller_agent` (`AttributeError` on the `{}` placeholder). -/
def ethBackhaulStep (cbi cag : Option Nat) (st : MState) (ifid : Nat) :
    Except PyErr MState := do
  let c ← interfaceNumberChar (getIface st.heap ifid).path
  if c == '1' then
    match cbi with
    | none => pure st
    | some cbiId => do
      let m ← (getIface st.heap ifid).get_macE
      let cbiMac ← (getIface st.heap cbiId).get_macE
      if m == cbiMac then pure st
      else do
        let hasChild ← ifaceIsChild st.heap cbiId m
        if !hasChild then do
          let h1 ← ifaceAddChild st.heap cbiId ifid
          let h2 := ifaceSetOrientation h1 ifid .UP
          match cag with
          | none => .error .attributeError
          | some cagId =>
            match (getIface h2 ifid).parentAgent with
            | none => .error .attributeError
            | some pa => do
              let h3 ← agentAddChildAgent h2 cagId pa
              pure { st with heap := h3 }
        else pure st
  else pure st

/-- Step 4, Wi-Fi branch, inner scan: the first interface whose `MACAddress`
equals the entry's `BackhaulMACAddress` becomes the parent (then `break`). -/
def wifiInnerScan (entryParams : Params) (childId : Nat) (st : MState) :
    List Nat → Except PyErr MState
  | [] => .ok st
  | pid :: rest => do
    let pm ← paramsGetE (getIface st.heap pid).params "MACAddress"
    let bm ← paramsGetE entryParams "BackhaulMACAddress"
    if pm == bm then do
      let h1 ← ifaceAddChild st.heap pid childId
      let h2 := ifaceSetOrientation h1 pid .DOWN
      let h3 := ifaceSetOrientation h2 childId .UP
      match (getIface h3 pid).parentAgent with
      | none => .error .attributeError
      | some ppa =>
        match (getIface h3 childId).parentAgent with
        | none => .error .attributeError
        | some cpa => do
          let h4 ← agentAddChildAgent h3 ppa cpa
          pure { st with heap := h4 }
    else wifiInnerScan entryParams childId st rest

/-- Step 4, Wi-Fi branch, body per candidate child interface: matches the
entry's `MACAddress` against the interface's. -/
def wifiOuterStep (entryParams : Params) (st : MState) (ifid : Nat) :
    Except PyErr MState := do
  let cm ← paramsGetE (getIface st.heap ifid).params "MACAddress"
  let em ← paramsGetE entryParams "MACAddress"
  if cm == em then wifiInnerScan entryParams ifid st (pdictValues st.ifaceDict)
  else pure st

/-- Step 4: entries matching `\.MultiAPDevice\.Backhaul\.$`.  The returned
flag is true when `LinkType == "None"` made the loop `continue`, skipping
steps 5-8 for this entry. -/
def stage4 (st : MState) (cbi cag : Option Nat) (e : NBEntry) :
    Except PyErr (MState × Bool) :=
  if matchBackhaulPath e.path then do
    let lt ← paramsGetE e.params "LinkType"
    if lt == .vStr "None" then pure (st, true)
    else if lt == .vStr "Ethernet" then do
      let st' ← foldE (ethBackhaulStep cbi cag) st (pdictValues st.ifaceDict)
      pure (st', false)
    else if lt == .vStr "Wi-Fi" then do
      let st' ← foldE (wifiOuterStep e.params) st (pdictValues st.ifaceDict)
      pure (st', false)
    else pure (st, false)
  else pure (st, false)

/-- Step 5, body per agent: entries matching `\.Radio\.\d{1,10}\.$` add a
Radio to every agent whose path prefixes the entry path. -/
def stage5Step (path : NBPath) (params : Params) (st : MState) (aid : Nat) :
    Except PyErr MState :=
  if pathStartsWith path (getAgent st.heap aid).path then
    .ok { st with heap := agentAddRadio st.heap aid (mkRadio path params) }
  else .ok st

/-- Step 5: entries matching `\.Radio\.\d{1,10}\.$`. -/
def stage5 (st : MState) (e : NBEntry) : Except PyErr MState :=
  if matchSegIdx "Radio" e.path then
    foldE (stage5Step e.path e.params) st (pdictValues st.agentDict)
  else pure st

/-- Step 6, interface scan: leftmost interface whose `MACAddress` equals the
radio's `ID` (both reads raising `KeyError`), then `break`. -/
def bssIfaceScan (h : Heap) (radioParams : Params) : List Nat → Except PyErr (Option Nat)
  | [] => .ok none
  | ifid :: rest => do
    let rid ← paramsGetE radioParams "ID"
    let im ← paramsGetE (getIface h ifid).params "MACAddress"
    if rid == im then pure (some ifid) else bssIfaceScan h radioParams rest

/-- Replace the `interface` of the last BSS of a radio (the BSS object the
loop body just appended and still holds). -/
def setLastBssIface (r : Radio) (ifid : Nat) : Radio :=
  { r with bsses :=
      r.bsses.dropLast ++
        (match r.bsses.getLast? with
         | some b => [{ b with interface := some ifid }]
         | none => []) }

/-- Step 6, body per radio (by index): when the entry path extends the radio
path, append the BSS and point it at the interface matching the radio's
`ID`. -/
def stage6RadioStep (path : NBPath) (params : Params) (aid : Nat) (st : MState)
    (ridx : Nat) : Except PyErr MState :=
  let r := getRadio st.heap aid ridx
  if pathStartsWith path r.path then do
    let st1 : MState := { st with heap := updRadio st.heap aid ridx (fun r0 => r0.add_bss (mkBSS path params)) }
    let found ← bssIfaceScan st1.heap r.params (pdictValues st1.ifaceDict)
    match found with
    | some ifid =>
      pure { st1 with heap := updRadio st1.heap aid ridx (fun r0 => setLastBssIface r0 ifid) }
    | none => pure st1
  else pure st

/-- Step 6, body per agent. -/
def stage6AgentStep (path : NBPath) (params : Params) (st : MState) (aid : Nat) :
    Except PyErr MState :=
  foldE (stage6RadioStep path params aid) st (List.range (getAgent st.heap aid).radios.length)

/-- Step 6: entries matching `\.BSS\.\d{1,10}\.$`. -/
def stage6 (st : MState) (e : NBEntry) : Except PyErr MState :=
  if matchSegIdx "BSS" e.path then
    foldE (stage6AgentStep e.path e.params) st (pdictValues st.agentDict)
  else pure st

/-- Lines 149-151 of `nbapi.py`, the per-station persistent update: when the
station has undergone a move, handle it (record the move, drop the stale
mapping), then register the station to its current radio. -/
def stationPStateStep (ps : PState) (mac ruid : Value) : PState :=
  let ps1 := if station_has_undergone_move ps mac ruid then
               handle_station_has_moved ps mac ruid
             else ps
  register_station_to_radio ps1 mac ruid

/-- Step 7, body per BSS (by index): when the entry path extends the BSS
path, create the Station, connect it to the BSS, update the persistent move
tracking, orient the BSS's interface (`AttributeError` on the `{}`
placeholder), connect the station to the interface unless its MAC is an
agent's, and append its RSSI reading. -/
def stage7BssStep (path : NBPath) (params : Params) (aid ridx : Nat)
    (acc : MState × List Station) (bidx : Nat) : Except PyErr (MState × List Station) := do
  let st := acc.1
  let slist := acc.2
  if pathStartsWith path (getBss st.heap aid ridx bidx).path then do
    let sta := mkStation path params
    let slist1 := slist ++ [sta]
    let st1 : MState := { st with heap := updBss st.heap aid ridx bidx (fun b => b.add_connected_station sta) }
    let ruid := (getRadio st1.heap aid ridx).get_ruid
    let st2 : MState := { st1 with pstate := stationPStateStep st1.pstate sta.get_mac ruid }
    match (getBss st2.heap aid ridx bidx).interface with
    | none => .error .attributeError
    | some ifid =>
      let st3 : MState := { st2 with heap := ifaceSetOrientation st2.heap ifid .DOWN }
      match (getIface st3.heap ifid).parentAgent with
      | none => .error .attributeError
      | some paid => do
        let isAgentSta ← agentIsChild st3.heap paid sta.get_mac
        let st4 ←
          if !isAgentSta then do
            let h ← ifaceAddConnectedStation st3.heap ifid sta
            pure { st3 with heap := h }
          else pure st3
        pure ({ st4 with
                 pstate := add_new_signal_strength_measurement st4.pstate sta.get_mac ruid sta.get_rssi },
              slist1)
  else pure acc

/-- Step 7, body per radio (by index). -/
def stage7RadioStep (path : NBPath) (params : Params) (aid : Nat)
    (acc : MState × List Station) (ridx : Nat) : Except PyErr (MState × List Station) :=
  foldE (stage7BssStep path params aid ridx) acc
    (List.range (getRadio acc.1.heap aid ridx).bsses.length)

/-- Step 7, body per agent. -/
def stage7AgentStep (path : NBPath) (params : Params)
    (acc : MState × List Station) (aid : Nat) : Except PyErr (MState × List Station) :=
  foldE (stage7RadioStep path params aid) acc
    (List.range (getAgent acc.1.heap aid).radios.length)

/-- Step 7: entries matching `\.STA\.\d{1,10}\.$`; `station_list` is freshly
emptied for every entry (`nbapi.py` line 140 sits inside the loop). -/
def stage7 (st : MState) (e : NBEntry) : Except PyErr (MState × List Station) :=
  if matchSegIdx "STA" e.path then
    foldE (stage7AgentStep e.path e.params) (st, []) (pdictValues st.agentDict)
  else pure (st, [])

/-- Step 8 scan over `station_list`: stations whose `MACAddress` equals the
entry's `DeviceId` are marked steered when `Result == "Success"` (the reads
raise `KeyError`, left to right with Python's short-circuit). -/
def stage8Scan (entryParams : Params) : List Station → Except PyErr (List Station)
  | [] => .ok []
  | sta :: rest => do
    let sm ← paramsGetE sta.params "MACAddress"
    let did ← paramsGetE entryParams "DeviceId"
    let sta' ←
      if sm == did then do
        let res ← paramsGetE entryParams "Result"
        pure (if res == .vStr "Success" then sta.set_steered true else sta)
      else pure sta
    let rest' ← stage8Scan entryParams rest
    pure (sta' :: rest')

/-- Step 8: entries matching `\.SteerEvent\.\d{1,10}\.$` scan `station_list`.
Such an entry never matches the STA pattern of step 7, so `station_list` is
empty whenever this scan runs; the scan's station copies die with the entry
(the heap is untouched, as in the source, where the aliasing is likewise
unobservable). -/
def stage8 (st : MState) (slist : List Station) (e : NBEntry) : Except PyErr MState :=
  if matchSegIdx "SteerEvent" e.path then do
    let _ ← stage8Scan e.params slist
    pure st
  else pure st

/-- Step 9, body per radio (by index): unassociated-station entries append a
`SignalStrength` reading (`KeyError` when absent); the
`UnassociatedStation` object itself is dropped on the floor by the source. -/
def stage9RadioStep (path : NBPath) (params : Params) (aid : Nat) (st : MState)
    (ridx : Nat) : Except PyErr MState :=
  let r := getRadio st.heap aid ridx
  if pathStartsWith path r.path then do
    let ss ← paramsGetE params "SignalStrength"
    let mac := paramsGetD params "MACAddress" (.vStr "")
    pure { st with pstate := add_new_signal_strength_measurement st.pstate mac r.get_ruid ss }
  else pure st

/-- Step 9, body per agent. -/
def stage9AgentStep (path : NBPath) (params : Params) (st : MState) (aid : Nat) :
    Except PyErr MState :=
  foldE (stage9RadioStep path params aid) st (List.range (getAgent st.heap aid).radios.length)

/-- Step 9: entries matching `\.UnassociatedSTA\.\d{1,10}\.$`. -/
def stage9 (st : MState) (e : NBEntry) : Except PyErr MState :=
  if matchSegIdx "UnassociatedSTA" e.path then
    foldE (stage9AgentStep e.path e.params) st (pdictValues st.agentDict)
  else pure st

/-- One iteration of the entry loop, steps 0 through 9 in source order; a
`LinkType == "None"` backhaul entry `continue`s past steps 5-9. -/
def processEntry (st : MState) (e : NBEntry) : Except PyErr MState := do
  let st0 ← stage0 st e
  let st1 ← stage1 st0 e
  let st2 ← stage2 st1 e
  let ctx3 ← stage3 st2 e
  let ctx ← stage3b ctx3
  let s4 ← stage4 ctx.1 ctx.2.1 ctx.2.2 e
  if s4.2 then pure s4.1
  else do
    let st5 ← stage5 s4.1 e
    let st6 ← stage6 st5 e
    let s7 ← stage7 st6 e
    let st8 ← stage8 s7.1 s7.2 e
    stage9 st8 e

/-- The entry loop. -/
def marshallEntries (st : MState) (entries : List NBEntry) : Except PyErr MState :=
  foldE processEntry st entries

/-- `marshall_nbapi_blob`: non-list input returns `Topology({}, {})`; list
input runs the entry loop, then evaluates
`Topology(list(agent_dict.values()), controller_id)` — a `NameError` when no
`\.Network\.$` entry ever bound `controller_id` (the empty list included).
The persistent store threads through and is returned alongside (on an
uncaught exception Python would keep the partially updated globals; no claim
observes that combination and the model returns only the error). -/
def marshall_nbapi_blob (j : NBJson) (ps : PState) : Except PyErr (Topology × PState) :=
  match j with
  | .nonList => .ok (mkTopology ⟨[], []⟩ [] none, ps)
  | .list entries =>
    match marshallEntries (MState.init ps) entries with
    | .error e => .error e
    | .ok st =>
      match st.controllerId with
      | none => .error .nameError
      | some cid => .ok (mkTopology st.heap (pdictValues st.agentDict) (some cid), st.pstate)

/-! ### `path_parser.py` -/

/-- Python `s.split('.')` on the character list: never collapses, empty
string yields `[""]` (structurally recursive mirror of `str.split('.')`). -/
def splitDotsAux : List Char → List Char → List String
  | [], acc => [String.mk acc.reverse]
  | c :: cs, acc =>
    if c == '.' then String.mk acc.reverse :: splitDotsAux cs []
    else splitDotsAux cs (c :: acc)

/-- Python `path.split('.')`. -/
def splitDots (s : String) : List String := splitDotsAux s.toList []

/-- `__token_is_device`. -/
def token_is_device (t : String) : Bool := t == "Device"

/-- `__should_skip_device_token`: only the literal token "Device" at index 0
is skipped. -/
def should_skip_device_token (t : String) (idx : Nat) : Bool :=
  token_is_device t && idx == 0

/-- The scanning loop of `parse_index_from_path_by_key`: on a key match that
is not the skipped Device-at-0, return the next token when one exists
(`len(split_path) > token_idx + 1`); otherwise the loop keeps scanning — when
the matched key was the final token no tokens remain, the loop ends and the
function returns `""`. -/
def parseIndexScan (key : String) : List String → Nat → String
  | [], _ => ""
  | t :: rest, idx =>
    if t == key then
      if should_skip_device_token t idx then parseIndexScan key rest (idx + 1)
      else
        match rest with
        | nxt :: _ => nxt
        | [] => ""
    else parseIndexScan key rest (idx + 1)

/-- `parse_index_from_path_by_key`. -/
def parse_index_from_path_by_key (path key : String) : String :=
  parseIndexScan key (splitDots path) 0

/-! ### Definitions following the spec's words (used only to state the
refuted claims and their amendments) -/

/-- Modelled from the claim wording for C10: return the token immediately
following the first occurrence of the keyword, skipping *any* keyword
occurrence at token position 0; empty string when absent or last. -/
def specParseIndexScan (key : String) : List String → Nat → String
  | [], _ => ""
  | t :: rest, idx =>
    if t == key && !(idx == 0) then
      match rest with
      | nxt :: _ => nxt
      | [] => ""
    else specParseIndexScan key rest (idx + 1)

/-- Modelled from the claim wording for C10 (whole-function form). -/
def specParseIndexFromPath (path key : String) : String :=
  specParseIndexScan key (splitDots path) 0

/-- The amended characterization for C10: the token after the first
occurrence of the key that is neither the literal "Device" at position 0 nor
the final token; `""` when no such occurrence exists. -/
def amendedParseIndexSpec (toks : List String) (key : String) : String :=
  match (List.range toks.length).find? (fun i =>
    toks.getD i "" == key && !(should_skip_device_token (toks.getD i "") i) &&
      decide (i + 1 < toks.length)) with
  | some i => toks.getD (i + 1) ""
  | none => ""

/-- The no-skip restriction of the index characterization: the token after
the first occurrence of the key that is not the final token (used for the
scan positions past the head). -/
def noSkipIndexSpec (toks : List String) (key : String) : String :=
  match (List.range toks.length).find? (fun i =>
    toks.getD i "" == key && decide (i + 1 < toks.length)) with
  | some i => toks.getD (i + 1) ""
  | none => ""

/-- The claim wording for C3, as a predicate on a constructed interface:
wired flag set iff the media-type code is 0x0 or 0x1, wireless flag set iff
the code lies in the 802.11 range 0x100 to 0x108. -/
def SpecC3 (mt : Value) (I : Interface) : Prop :=
  (paramsGet? I.params "wired" = some (.vInt 1) ↔ (mt = .vInt 0 ∨ mt = .vInt 1)) ∧
  (paramsGet? I.params "wireless" = some (.vInt 1) ↔
    (∃ i : Int, mt = .vInt i ∧ 0x100 ≤ i ∧ i ≤ 0x108))

/-! ### Derived accessors used to state the claims -/

/-- The station MACs connected to a BSS. -/
def bssStaMacs (b : BSS) : List Value := b.connected_stations.map Station.get_mac

/-- The MAC a station record yields (`Station.get_mac` of the station the
resolver builds from it). -/
def staMacParam (e : NBEntry) : Value := paramsGetD e.params "MACAddress" (.vStr "")

/-- Two BSS paths overlap when either, dot included, is a string prefix of
the other (the relation under which one STA record can land in both). -/
def bssPathsOverlap (p q : NBPath) : Bool := pathStartsWith p q || pathStartsWith q p

/-- Provenance of one connected station: some STA record of the input put it
into this BSS. -/
def ProvOf (E : List NBEntry) (b : BSS) (s : Station) : Prop :=
  ∃ e ∈ E, matchSegIdx "STA" e.path = true ∧ pathStartsWith e.path b.path = true ∧
    s.path = e.path ∧ s.params = e.params

/-- Provenance of every station of one BSS. -/
def BssProv (E : List NBEntry) (b : BSS) : Prop :=
  ∀ s ∈ b.connected_stations, ProvOf E b s

/-- Provenance of every station of one radio. -/
def RadioProv (E : List NBEntry) (r : Radio) : Prop :=
  ∀ b ∈ r.bsses, BssProv E b

/-- Provenance of every station of one agent. -/
def AgentProv (E : List NBEntry) (a : Agent) : Prop :=
  ∀ r ∈ a.radios, RadioProv E r

/-- Provenance of every station in the heap. -/
def StaProv (E : List NBEntry) (h : Heap) : Prop :=
  ∀ a ∈ h.agents, AgentProv E a

/-! ### Concrete fixtures for the evaluation theorems -/

/-- "Device.WiFi.DataElements.Network." -/
def netPath : NBPath := ["Device", "WiFi", "DataElements", "Network", ""]

/-- "Device.WiFi.DataElements.Network.Device.1." -/
def devPath : NBPath := ["Device", "WiFi", "DataElements", "Network", "Device", "1", ""]

/-- "Device.WiFi.DataElements.Network.Device.1.Interface.1." -/
def ifPath : NBPath :=
  ["Device", "WiFi", "DataElements", "Network", "Device", "1", "Interface", "1", ""]

/-- "Device.WiFi.DataElements.Network.Device.1.Radio.1." -/
def radioPath : NBPath :=
  ["Device", "WiFi", "DataElements", "Network", "Device", "1", "Radio", "1", ""]

/-- "Device.WiFi.DataElements.Network.Device.1.Radio.1.BSS.1." -/
def bssPath1 : NBPath :=
  ["Device", "WiFi", "DataElements", "Network", "Device", "1", "Radio", "1", "BSS", "1", ""]

/-- "Device.WiFi.DataElements.Network.Device.1.Radio.1.BSS.2." -/
def bssPath2 : NBPath :=
  ["Device", "WiFi", "DataElements", "Network", "Device", "1", "Radio", "1", "BSS", "2", ""]

/-- "….Radio.1.BSS.1.STA.1." -/
def staPath1 : NBPath :=
  ["Device", "WiFi", "DataElements", "Network", "Device", "1", "Radio", "1", "BSS", "1", "STA", "1", ""]

/-- "….Radio.1.BSS.2.STA.1." -/
def staPath2 : NBPath :=
  ["Device", "WiFi", "DataElements", "Network", "Device", "1", "Radio", "1", "BSS", "2", "STA", "1", ""]

/-- "….Device.1.SteerEvent.1." -/
def steerPath : NBPath :=
  ["Device", "WiFi", "DataElements", "Network", "Device", "1", "SteerEvent", "1", ""]

/-- Input for C7: one controller device with an interface, a radio whose `ID`
matches the interface MAC, one BSS, one station, and a successful steering
event for that station's MAC. -/
def c7Entries : List NBEntry :=
  [ ⟨netPath, [("ControllerID", .vStr "aa:bb:cc:dd:ee:ff")]⟩,
    ⟨devPath, [("ID", .vStr "aa:bb:cc:dd:ee:ff")]⟩,
    ⟨ifPath, [("MACAddress", .vStr "11:11:11:11:11:11"), ("MediaType", .vInt 260)]⟩,
    ⟨radioPath, [("ID", .vStr "11:11:11:11:11:11")]⟩,
    ⟨bssPath1, [("BSSID", .vStr "b1:b1:b1:b1:b1:b1"), ("SSID", .vStr "TestNet")]⟩,
    ⟨staPath1, [("MACAddress", .vStr "55:55:55:55:55:55")]⟩,
    ⟨steerPath, [("DeviceId", .vStr "55:55:55:55:55:55"), ("Result", .vStr "Success")]⟩ ]

/-- Input for the C8 counterexample: as above but with two BSSes on the radio
and one station record under each BSS carrying the same MAC. -/
def c8Entries : List NBEntry :=
  [ ⟨netPath, [("ControllerID", .vStr "aa:bb:cc:dd:ee:ff")]⟩,
    ⟨devPath, [("ID", .vStr "aa:bb:cc:dd:ee:ff")]⟩,
    ⟨ifPath, [("MACAddress", .vStr "11:11:11:11:11:11"), ("MediaType", .vInt 260)]⟩,
    ⟨radioPath, [("ID", .vStr "11:11:11:11:11:11")]⟩,
    ⟨bssPath1, [("BSSID", .vStr "B1")]⟩,
    ⟨bssPath2, [("BSSID", .vStr "B2")]⟩,
    ⟨staPath1, [("MACAddress", .vStr "55:55:55:55:55:55")]⟩,
    ⟨staPath2, [("MACAddress", .vStr "55:55:55:55:55:55")]⟩ ]

/-- Witness input for the amended C8: two BSSes on the radio with
non-comparable paths and one station record under each, the two records
carrying *distinct* MACs. -/
def c8wEntries : List NBEntry :=
  [ ⟨netPath, [("ControllerID", .vStr "aa:bb:cc:dd:ee:ff")]⟩,
    ⟨devPath, [("ID", .vStr "aa:bb:cc:dd:ee:ff")]⟩,
    ⟨ifPath, [("MACAddress", .vStr "11:11:11:11:11:11"), ("MediaType", .vInt 260)]⟩,
    ⟨radioPath, [("ID", .vStr "11:11:11:11:11:11")]⟩,
    ⟨bssPath1, [("BSSID", .vStr "B1")]⟩,
    ⟨bssPath2, [("BSSID", .vStr "B2")]⟩,
    ⟨staPath1, [("MACAddress", .vStr "55:55:55:55:55:55")]⟩,
    ⟨staPath2, [("MACAddress", .vStr "66:66:66:66:66:66")]⟩ ]

/-- The topology the resolver produces from `c8wEntries`. -/
def c8wTopo : Topology :=
  match marshall_nbapi_blob (.list c8wEntries) PState.empty with
  | .ok tp => tp.1
  | .error _ => mkTopology ⟨[], []⟩ [] none

/-- The persistent state the resolver returns alongside `c8wTopo`. -/
def c8wPS : PState :=
  match marshall_nbapi_blob (.list c8wEntries) PState.empty with
  | .ok tp => tp.2
  | .error _ => PState.empty

/-- The claim wording of C2 at two interfaces of a heap: both classified
wired (truthy `wired`, falsy `wireless`). -/
def SpecC2 (h : Heap) (i j : Nat) : Prop :=
  (paramsGet? (getIface h i).params "wired").map pyTruthy = some true ∧
  (paramsGet? (getIface h i).params "wireless").map pyTruthy = some false ∧
  (paramsGet? (getIface h j).params "wired").map pyTruthy = some true ∧
  (paramsGet? (getIface h j).params "wireless").map pyTruthy = some false

/-- A Wi-Fi-classified interface (media type `IEEE_802_11AX`). -/
def c2IfaceW : Interface :=
  match mkInterface ["x", "Interface", "1", ""]
      [("MACAddress", .vStr "w0:00:00:00:00:01"), ("MediaType", .vStr "IEEE_802_11AX")] with
  | .ok i => i
  | .error _ => Interface.dummy

/-- An Ethernet-classified interface (media type `0x0`). -/
def c2IfaceE : Interface :=
  match mkInterface ["x", "Interface", "2", ""]
      [("MACAddress", .vStr "e0:00:00:00:00:02"), ("MediaType", .vInt 0)] with
  | .ok i => i
  | .error _ => Interface.dummy

/-- Heap holding the wireless interface (id 0) and the wired one (id 1). -/
def c2Heap : Heap := ⟨[], [c2IfaceW, c2IfaceE]⟩

/-- The heap after linking the wired interface as child of the wireless one. -/
def c2Result : Heap :=
  match ifaceAddChild c2Heap 0 1 with
  | .ok h => h
  | .error _ => c2Heap

/-- The interface built from a record whose media-type code is 0x100. -/
def c3Iface : Interface :=
  match mkInterface ["x", "Interface", "1", ""] [("MediaType", .vInt 0x100)] with
  | .ok i => i
  | .error _ => Interface.dummy

/-- A store with one pending moved station. -/
def c5PS : PState := ⟨[.vStr "55:55:55:55:55:55"], [], []⟩

/-- Topology with a controller whose first radio's first BSS advertises
"TestNet". -/
def c9Topo1 : Topology :=
  mkTopology
    (agentAddRadio (allocAgent ⟨[], []⟩ (mkAgent ["a", ""] [("ID", .vStr "C")])).1 0
      ((mkRadio ["a", "Radio", "1", ""] []).add_bss
        (mkBSS ["a", "Radio", "1", "BSS", "1", ""] [("SSID", .vStr "TestNet")])))
    [0] (some (.vStr "C"))

/-- Topology with no controller at all. -/
def c9Topo2 : Topology := mkTopology ⟨[], []⟩ [] (some (.vStr "C"))

/-- Topology whose controller has no radios. -/
def c9Topo3 : Topology :=
  mkTopology (allocAgent ⟨[], []⟩ (mkAgent ["a", ""] [("ID", .vStr "C")])).1 [0]
    (some (.vStr "C"))

/-- A store mapping station "S" to radio "R1". -/
def c4PS : PState := ⟨[], [(.vStr "S", .vStr "R1")], []⟩

/-! ## Helper lemmas -/

theorem paramsGet?_set_self (ps : Params) (k : String) (v : Value) :
    paramsGet? (paramsSet ps k v) k = some v := by
  induction ps with
  | nil => simp [paramsSet, paramsGet?]
  | cons kv rest ih =>
    by_cases h : kv.1 = k
    · simp [paramsSet, paramsGet?, h]
    · simp [paramsSet, paramsGet?, h, ih]

theorem paramsGet?_set_ne (ps : Params) (k k' : String) (v : Value) (hne : k' ≠ k) :
    paramsGet? (paramsSet ps k v) k' = paramsGet? ps k' := by
  induction ps with
  | nil => simp [paramsSet, paramsGet?, Ne.symm hne]
  | cons kv rest ih =>
    by_cases h : kv.1 = k
    · simp [paramsSet, paramsGet?, h, Ne.symm hne]
    · by_cases h' : kv.1 = k'
      · simp [paramsSet, paramsGet?, h, h', hne]
      · simp [paramsSet, paramsGet?, h, h', ih]

theorem getIface_updIface_self (h : Heap) (i : Nat) (f : Interface → Interface)
    (hlt : i < h.ifaces.length) : getIface (updIface h i f) i = f (getIface h i) := by
  simp [getIface, updIface, setIface, List.getD_eq_getElem?_getD,
    List.getElem?_set_eq_of_lt _ hlt]

theorem getIface_updIface_ne (h : Heap) (i j : Nat) (f : Interface → Interface)
    (hne : j ≠ i) : getIface (updIface h i f) j = getIface h j := by
  simp [getIface, updIface, setIface, List.getD_eq_getElem?_getD,
    List.getElem?_set_ne (Ne.symm hne)]

theorem getIface_setIface_self (h : Heap) (i : Nat) (x : Interface)
    (hlt : i < h.ifaces.length) : getIface (setIface h i x) i = x := by
  simp [getIface, setIface, List.getD_eq_getElem?_getD, List.getElem?_set_eq_of_lt _ hlt]

theorem getIface_setIface_ne (h : Heap) (i j : Nat) (x : Interface)
    (hne : j ≠ i) : getIface (setIface h i x) j = getIface h j := by
  simp [getIface, setIface, List.getD_eq_getElem?_getD,
    List.getElem?_set_ne (Ne.symm hne)]

theorem exc_bind_ok {ε α β : Type} (a : α) (f : α → Except ε β) :
    (Except.ok a >>= f) = f a := rfl

theorem exc_bind_err {ε α β : Type} (e : ε) (f : α → Except ε β) :
    ((Except.error e : Except ε α) >>= f) = .error e := rfl

theorem exc_map_ok {ε α β : Type} (f : α → β) (a : α) :
    (Except.ok a : Except ε α).map f = .ok (f a) := rfl

theorem exc_pure {ε α : Type} (a : α) : (pure a : Except ε α) = .ok a := rfl

theorem updIface_length (h : Heap) (i : Nat) (f : Interface → Interface) :
    (updIface h i f).ifaces.length = h.ifaces.length := by
  simp [updIface, setIface]

theorem assocGet?_set_self {β : Type} (l : List (Value × β)) (k : Value) (v : β) :
    assocGet? (assocSet l k v) k = some v := by
  induction l with
  | nil => simp [assocSet, assocGet?]
  | cons kv rest ih =>
    by_cases h : kv.1 = k
    · simp [assocSet, assocGet?, h]
    · simp [assocSet, assocGet?, h, ih]

theorem assocGet?_set_ne {β : Type} (l : List (Value × β)) (k k' : Value) (v : β)
    (hne : k' ≠ k) : assocGet? (assocSet l k v) k' = assocGet? l k' := by
  induction l with
  | nil => simp [assocSet, assocGet?, Ne.symm hne]
  | cons kv rest ih =>
    by_cases h : kv.1 = k
    · simp [assocSet, assocGet?, h, Ne.symm hne]
    · by_cases h' : kv.1 = k'
      · simp [assocSet, assocGet?, h, h', hne]
      · simp [assocSet, assocGet?, h, h', ih]

/-! ## Theorems settling the claims -/

/-- C1.  Non-list input does return an empty Topology (no controller, zero
connections) without raising; but the *empty list* — which the claim also
covers — raises `NameError`, because `return Topology(..., controller_id)`
reads `controller_id`, which is only ever bound by a `\.Network\.$` entry.
This contradicts the claim's "never raises" for empty input: the code bug the
claim exposes. -/
theorem c1_empty_list_raises_nameError : ∀ ps : PState,
    (∃ t : Topology, marshall_nbapi_blob NBJson.nonList ps = .ok (t, ps) ∧
      t.get_connections = [] ∧ t.get_controller = none) ∧
    marshall_nbapi_blob (NBJson.list []) ps = .error .nameError :=
  fun _ => ⟨⟨mkTopology ⟨[], []⟩ [] none, rfl, rfl, rfl⟩, rfl⟩

/-- C7.  Evaluating the resolver on an input holding one station and a
matching successful steering event: the resolved station's `steered` flag is
still `false`, because `station_list` is re-initialized to `[]` on every
entry of the loop (`nbapi.py` line 140), so the SteerEvent scan of step 8
always runs over an empty list.  The claim (mark the matching station
steered) states the evident intent of step 8; the code cannot ever do it. -/
theorem c7_steer_event_never_marks :
    (marshall_nbapi_blob (.list c7Entries) PState.empty).map
        (fun tp => (tp.1.get_stations.map (fun s => s.is_steered),
                    tp.1.get_stations.map (fun s => s.get_mac)))
      = .ok ([false], [.vStr "55:55:55:55:55:55"]) := by
  rfl

/-- C9.  `get_ssid` returns the first BSS's SSID when the controller, its
first radio and that radio's first BSS exist, and the sentinel string when
there is no controller; but with a controller that has *no radios* it raises
`IndexError` instead of returning the documented sentinel ("The SSID if
found, error message otherwise"), refuting the claim's error-handling half.
-/
theorem c9_get_ssid_no_radios_raises :
    c9Topo1.get_ssid = .ok (.vStr "TestNet") ∧
    c9Topo2.get_ssid = .ok (.vStr "No SSID found") ∧
    c9Topo3.get_ssid = .error .indexError :=
  ⟨rfl, rfl, rfl⟩

/-- Helper for C2: the wireless-parent / wired-child direction of
`Interface.add_child` coerces the child to the parent's (wireless)
classification. -/
theorem ifaceAddChild_wireless_parent (h : Heap) (iW iE : Nat)
    (sw cw swd smts cmac : Value)
    (hlW : iW < h.ifaces.length) (hlE : iE < h.ifaces.length) (hne : iW ≠ iE)
    (hsw : paramsGet? (getIface h iW).params "wireless" = some sw)
    (htw : pyTruthy sw = true)
    (hcw : paramsGet? (getIface h iE).params "wireless" = some cw)
    (htc : pyTruthy cw = false)
    (hsm : paramsGet? (getIface h iW).params "MediaTypeString" = some smts)
    (hsd : paramsGet? (getIface h iW).params "wired" = some swd)
    (hch : (getIface h iW).children = [])
    (hmac : paramsGet? (getIface h iE).params "MACAddress" = some cmac) :
    (ifaceAddChild h iW iE).map (fun h' =>
      (paramsGet? (getIface h' iE).params "wireless",
       paramsGet? (getIface h' iE).params "wired",
       paramsGet? (getIface h' iE).params "MediaTypeString",
       paramsGet? (getIface h' iW).params "wireless",
       paramsGet? (getIface h' iW).params "wired",
       (getIface h' iW).children))
      = .ok (some sw, some swd, some smts, some sw, some swd, [iE]) := by
  have hneEW : iE ≠ iW := Ne.symm hne
  have hmac3 : paramsGet?
      (paramsSet (paramsSet (paramsSet (getIface h iE).params "MediaTypeString" smts)
        "wired" swd) "wireless" sw) "MACAddress" = some cmac := by
    rw [paramsGet?_set_ne _ _ _ _ (by decide), paramsGet?_set_ne _ _ _ _ (by decide),
      paramsGet?_set_ne _ _ _ _ (by decide), hmac]
  simp only [ifaceAddChild, ifaceCoerceMedia, paramsGetE, hsw, exc_bind_ok, htw, if_true, hcw, htc,
    Bool.not_false, hsm, exc_pure, hsd,
    getIface_updIface_ne, getIface_updIface_self, getIface_setIface_ne,
    getIface_setIface_self, updIface_length,
    hlE, hlW, hne, hneEW, ne_eq, not_false_iff, not_false_eq_true,
    pyKeyedSort, List.mapM, List.mapM.loop, hmac3, hch, List.nil_append,
    List.reverse_cons, List.reverse_nil,
    List.length_cons, List.length_nil, Nat.zero_add, le_refl, exc_map_ok]
  simp only [paramsGet?_set_self,
    paramsGet?_set_ne _ _ _ _ (by decide : ("wired" : String) ≠ "wireless"),
    paramsGet?_set_ne _ _ _ _ (by decide : ("MediaTypeString" : String) ≠ "wireless"),
    paramsGet?_set_ne _ _ _ _ (by decide : ("MediaTypeString" : String) ≠ "wired"),
    hsw, hsd]

/-- Helper for C2: the wired-parent / wireless-child direction of
`Interface.add_child` coerces the *parent* to the child's (wireless)
classification. -/
theorem ifaceAddChild_wireless_child (h : Heap) (iS iC : Nat)
    (sw cw cwd cmts cmac : Value)
    (hlS : iS < h.ifaces.length) (_hlC : iC < h.ifaces.length) (hne : iS ≠ iC)
    (hsw : paramsGet? (getIface h iS).params "wireless" = some sw)
    (htw : pyTruthy sw = false)
    (hcw : paramsGet? (getIface h iC).params "wireless" = some cw)
    (htc : pyTruthy cw = true)
    (hcm : paramsGet? (getIface h iC).params "MediaTypeString" = some cmts)
    (hcd : paramsGet? (getIface h iC).params "wired" = some cwd)
    (hch : (getIface h iS).children = [])
    (hmac : paramsGet? (getIface h iC).params "MACAddress" = some cmac) :
    (ifaceAddChild h iS iC).map (fun h' =>
      (paramsGet? (getIface h' iC).params "wireless",
       paramsGet? (getIface h' iC).params "wired",
       paramsGet? (getIface h' iC).params "MediaTypeString",
       paramsGet? (getIface h' iS).params "wireless",
       paramsGet? (getIface h' iS).params "wired",
       (getIface h' iS).children))
      = .ok (some cw, some cwd, some cmts, some cw, some cwd, [iC]) := by
  have hneCS : iC ≠ iS := Ne.symm hne
  simp only [ifaceAddChild, ifaceCoerceMedia, paramsGetE, hsw, exc_bind_ok, htw, hcw, htc,
    Bool.not_false, Bool.false_eq_true, if_false, if_true, Bool.true_and,
    Bool.not_true, hcm, exc_pure, hcd, hmac,
    getIface_updIface_ne, getIface_updIface_self, getIface_setIface_ne,
    getIface_setIface_self, updIface_length,
    hlS, hne, hneCS, ne_eq, not_false_iff, not_false_eq_true,
    pyKeyedSort, List.mapM, List.mapM.loop, hch, List.nil_append,
    List.reverse_cons, List.reverse_nil,
    List.length_cons, List.length_nil, Nat.zero_add, le_refl, exc_map_ok]
  simp only [paramsGet?_set_self,
    paramsGet?_set_ne _ _ _ _ (by decide : ("wired" : String) ≠ "wireless"),
    paramsGet?_set_ne _ _ _ _ (by decide : ("MediaTypeString" : String) ≠ "wireless"),
    paramsGet?_set_ne _ _ _ _ (by decide : ("MediaTypeString" : String) ≠ "wired"),
    hcw, hcd]

/-- C2 amended.  When `Interface.add_child` links a wireless-classified
interface with a wired-classified one (in either parent/child order, with
valid heap references, the classification parameters present, and no prior
children), both interfaces end up with the same classification, and that
shared classification is the *wireless* one: both carry the wireless side's
`wireless`, `wired`, and `MediaTypeString` values, and the child is recorded
in the parent's children. -/
theorem c2_add_child_coercion_amended :
    (∀ (h : Heap) (iW iE : Nat) (sw cw swd smts cmac : Value),
      iW < h.ifaces.length → iE < h.ifaces.length → iW ≠ iE →
      paramsGet? (getIface h iW).params "wireless" = some sw → pyTruthy sw = true →
      paramsGet? (getIface h iE).params "wireless" = some cw → pyTruthy cw = false →
      paramsGet? (getIface h iW).params "MediaTypeString" = some smts →
      paramsGet? (getIface h iW).params "wired" = some swd →
      (getIface h iW).children = [] →
      paramsGet? (getIface h iE).params "MACAddress" = some cmac →
      (ifaceAddChild h iW iE).map (fun h' =>
        (paramsGet? (getIface h' iE).params "wireless",
         paramsGet? (getIface h' iE).params "wired",
         paramsGet? (getIface h' iE).params "MediaTypeString",
         paramsGet? (getIface h' iW).params "wireless",
         paramsGet? (getIface h' iW).params "wired",
         (getIface h' iW).children))
        = .ok (some sw, some swd, some smts, some sw, some swd, [iE])) ∧
    (∀ (h : Heap) (iS iC : Nat) (sw cw cwd cmts cmac : Value),
      iS < h.ifaces.length → iC < h.ifaces.length → iS ≠ iC →
      paramsGet? (getIface h iS).params "wireless" = some sw → pyTruthy sw = false →
      paramsGet? (getIface h iC).params "wireless" = some cw → pyTruthy cw = true →
      paramsGet? (getIface h iC).params "MediaTypeString" = some cmts →
      paramsGet? (getIface h iC).params "wired" = some cwd →
      (getIface h iS).children = [] →
      paramsGet? (getIface h iC).params "MACAddress" = some cmac →
      (ifaceAddChild h iS iC).map (fun h' =>
        (paramsGet? (getIface h' iC).params "wireless",
         paramsGet? (getIface h' iC).params "wired",
         paramsGet? (getIface h' iC).params "MediaTypeString",
         paramsGet? (getIface h' iS).params "wireless",
         paramsGet? (getIface h' iS).params "wired",
         (getIface h' iS).children))
        = .ok (some cw, some cwd, some cmts, some cw, some cwd, [iC])) :=
  ⟨fun h iW iE sw cw swd smts cmac h1 h2 h3 h4 h5 h6 h7 h8 h9 h10 h11 =>
    ifaceAddChild_wireless_parent h iW iE sw cw swd smts cmac h1 h2 h3 h4 h5 h6 h7 h8 h9 h10 h11,
   fun h iS iC sw cw cwd cmts cmac h1 h2 h3 h4 h5 h6 h7 h8 h9 h10 h11 =>
    ifaceAddChild_wireless_child h iS iC sw cw cwd cmts cmac h1 h2 h3 h4 h5 h6 h7 h8 h9 h10 h11⟩

/-- C2 amended witness: the concrete Wi-Fi and Ethernet interfaces of the
counterexample heap, linked in both directions. -/
theorem c2_add_child_coercion_amended_witness :
    (ifaceAddChild c2Heap 0 1).map (fun h' =>
      (paramsGet? (getIface h' 1).params "wireless",
       paramsGet? (getIface h' 1).params "wired",
       paramsGet? (getIface h' 1).params "MediaTypeString",
       paramsGet? (getIface h' 0).params "wireless",
       paramsGet? (getIface h' 0).params "wired",
       (getIface h' 0).children))
      = .ok (some (.vInt 1), some (.vInt 0), some (.vStr "AC 5 GHz"),
             some (.vInt 1), some (.vInt 0), [1]) ∧
    (ifaceAddChild c2Heap 1 0).map (fun h' =>
      (paramsGet? (getIface h' 0).params "wireless",
       paramsGet? (getIface h' 0).params "wired",
       paramsGet? (getIface h' 0).params "MediaTypeString",
       paramsGet? (getIface h' 1).params "wireless",
       paramsGet? (getIface h' 1).params "wired",
       (getIface h' 1).children))
      = .ok (some (.vInt 1), some (.vInt 0), some (.vStr "AC 5 GHz"),
             some (.vInt 1), some (.vInt 0), [0]) :=
  ⟨c2_add_child_coercion_amended.1 c2Heap 0 1 (.vInt 1) (.vInt 0) (.vInt 0)
      (.vStr "AC 5 GHz") (.vStr "e0:00:00:00:00:02")
      (by decide) (by decide) (by decide) rfl rfl rfl rfl rfl rfl rfl rfl,
   c2_add_child_coercion_amended.2 c2Heap 1 0 (.vInt 0) (.vInt 1) (.vInt 0)
      (.vStr "AC 5 GHz") (.vStr "w0:00:00:00:00:01")
      (by decide) (by decide) (by decide) rfl rfl rfl rfl rfl rfl rfl rfl⟩

/-- C2 counterexample.  Linking the Ethernet-classified interface (id 1) as a
child of the Wi-Fi-classified one (id 0) leaves *both* wireless
(`wired = 0`, `wireless = 1`): the coercion copies the classification of the
wireless side, so the claim's "wired wins" prediction (`SpecC2`) is false. -/
theorem c2_counterexample :
    ifaceAddChild c2Heap 0 1 = .ok c2Result ∧
    (paramsGet? (getIface c2Result 0).params "wireless" = some (.vInt 1) ∧
     paramsGet? (getIface c2Result 0).params "wired" = some (.vInt 0)) ∧
    (paramsGet? (getIface c2Result 1).params "wireless" = some (.vInt 1) ∧
     paramsGet? (getIface c2Result 1).params "wired" = some (.vInt 0)) ∧
    ¬ SpecC2 c2Result 0 1 := by
  refine ⟨rfl, ⟨rfl, rfl⟩, ⟨rfl, rfl⟩, ?_⟩
  intro hspec
  exact absurd hspec.1 (by decide)

/-- C3 counterexample.  A record with media-type code 0x100 (in the claim's
802.11 range) builds an interface with `wired = 1` and `wireless = 0`: the
constructor only classifies as wireless the two *string* codes
`IEEE_802_11N_2_4_GHZ` and `IEEE_802_11AX`, so the claim's code-range
characterization (`SpecC3`) fails. -/
theorem c3_counterexample :
    mkInterface ["x", "Interface", "1", ""] [("MediaType", .vInt 0x100)] = .ok c3Iface ∧
    paramsGet? c3Iface.params "wireless" = some (.vInt 0) ∧
    paramsGet? c3Iface.params "wired" = some (.vInt 1) ∧
    ¬ SpecC3 (.vInt 0x100) c3Iface := by
  refine ⟨rfl, rfl, rfl, ?_⟩
  intro hspec
  have h := hspec.2.mpr ⟨0x100, rfl, by norm_num, by norm_num⟩
  exact absurd h (by decide)

/-- C5 counterexample.  With one pending moved station, two successive calls
of `get_stations_that_have_moved` both return that station: the function
returns the list without clearing it (the claimed consume-and-clear, with an
empty second read, is false). -/
theorem c5_counterexample :
    (get_stations_that_have_moved c5PS).1 = [.vStr "55:55:55:55:55:55"] ∧
    (get_stations_that_have_moved (get_stations_that_have_moved c5PS).2).1
      = [.vStr "55:55:55:55:55:55"] ∧
    ¬ (get_stations_that_have_moved (get_stations_that_have_moved c5PS).2).1 = [] := by
  exact ⟨rfl, rfl, by decide⟩

/-- C8 counterexample.  Resolving an input with two BSSes and one station
record under each carrying the same MAC yields a Topology where that MAC is a
connected station of two distinct BSSes (distinct paths, distinct BSSIDs) —
the claim's unconditional uniqueness over all inputs is false. -/
theorem c8_counterexample :
    (marshall_nbapi_blob (.list c8Entries) PState.empty).map
        (fun tp => tp.1.get_bsses.map (fun b => (b.path, bssStaMacs b)))
      = .ok [(bssPath1, [.vStr "55:55:55:55:55:55"]),
             (bssPath2, [.vStr "55:55:55:55:55:55"])] ∧
    (marshall_nbapi_blob (.list c8Entries) PState.empty).map
        (fun tp => tp.1.get_connections)
      = .ok [(.vStr "B1", .vStr "55:55:55:55:55:55"),
             (.vStr "B2", .vStr "55:55:55:55:55:55")] ∧
    bssPath1 ≠ bssPath2 := by
  exact ⟨rfl, rfl, by decide⟩

/-- C10 counterexample.  For path "Radio.5" and keyword "Radio" the code
returns "5" (the position-0 occurrence is only skipped for the literal token
"Device"), while the claim's reading — skip the keyword's occurrence at
position 0 for every keyword — yields "".  The two disagree. -/
theorem c10_counterexample :
    parse_index_from_path_by_key "Radio.5" "Radio" = "5" ∧
    specParseIndexFromPath "Radio.5" "Radio" = "" ∧
    parse_index_from_path_by_key "Radio.5" "Radio" ≠
      specParseIndexFromPath "Radio.5" "Radio" := by
  exact ⟨rfl, rfl, by decide⟩

theorem find?_range_succ (p : Nat → Bool) (n : Nat) :
    (List.range (n + 1)).find? p =
      if p 0 then some 0 else ((List.range n).find? (fun i => p (i + 1))).map Nat.succ := by
  rw [List.range_succ_eq_map]
  cases hp : p 0 with
  | true => simp [List.find?_cons, hp]
  | false =>
    simp only [List.find?_cons, hp, if_false, Bool.false_eq_true]
    rw [List.find?_map]
    rfl

theorem noSkipIndexSpec_cons (t : String) (rest : List String) (key : String) :
    noSkipIndexSpec (t :: rest) key =
      if t == key then (match rest with | nxt :: _ => nxt | [] => "")
      else noSkipIndexSpec rest key := by
  unfold noSkipIndexSpec
  rw [show (t :: rest).length = rest.length + 1 from rfl, find?_range_succ]
  by_cases ht : t == key
  · cases rest with
    | nil => simp [ht]
    | cons nxt rs => simp [ht]
  · simp only [List.getD_cons_zero, ht, Bool.false_and, if_false, Bool.false_eq_true]
    have hpred : (fun i => (t :: rest).getD (i + 1) "" == key &&
        decide (i + 1 + 1 < rest.length + 1)) =
        (fun i => rest.getD i "" == key && decide (i + 1 < rest.length)) := by
      funext i
      simp [List.getD_cons_succ, Nat.succ_lt_succ_iff]
    rw [hpred]
    cases hf : (List.range rest.length).find? (fun i =>
        rest.getD i "" == key && decide (i + 1 < rest.length)) with
    | none => simp
    | some i => simp [List.getD_cons_succ]

theorem parseIndexScan_pos (key : String) : ∀ (toks : List String) (idx : Nat), 1 ≤ idx →
    parseIndexScan key toks idx = noSkipIndexSpec toks key := by
  intro toks
  induction toks with
  | nil => intro idx _; rfl
  | cons t rest ih =>
    intro idx hidx
    rw [noSkipIndexSpec_cons]
    have hidx0 : idx ≠ 0 := by omega
    have hskip : should_skip_device_token t idx = false := by
      simp [should_skip_device_token, token_is_device, hidx0]
    by_cases ht : t == key
    · simp [parseIndexScan, ht, hskip]
    · simp only [parseIndexScan, ht, if_false, Bool.false_eq_true]
      exact ih (idx + 1) (by omega)

theorem amendedParseIndexSpec_cons (t : String) (rest : List String) (key : String) :
    amendedParseIndexSpec (t :: rest) key =
      if t == key && !(t == "Device") then (match rest with | nxt :: _ => nxt | [] => "")
      else noSkipIndexSpec rest key := by
  unfold amendedParseIndexSpec noSkipIndexSpec
  rw [show (t :: rest).length = rest.length + 1 from rfl, find?_range_succ]
  have hsk0 : should_skip_device_token t 0 = (t == "Device") := by
    simp [should_skip_device_token, token_is_device]
  by_cases htk : (t == key && !(t == "Device")) = true
  · cases rest with
    | nil => simp [htk, hsk0, List.getD_cons_zero]
    | cons nxt rs =>
      have htk2 : (t == key) = true ∧ (t == "Device") = false := by
        have h2 := htk
        simp only [Bool.and_eq_true, Bool.not_eq_true'] at h2
        exact h2
      have hq := htk2.1
      have hd := htk2.2
      simp [hsk0, hq, hd, htk]
  · have hp0 : (t == key && !(should_skip_device_token t 0) &&
        decide (0 + 1 < rest.length + 1)) = false := by
      rw [hsk0]
      rcases Bool.eq_false_iff.mpr (fun hcontra => htk hcontra) with h
      cases hq : (t == key) with
      | false => simp [hq]
      | true =>
        cases hd : (t == "Device") with
        | true => simp [hq, hd]
        | false =>
          exfalso
          apply htk
          simp [hq, hd]
    simp only [List.getD_cons_zero] at hp0
    simp only [List.getD_cons_zero, hp0, if_false, Bool.false_eq_true, htk]
    have hpred : (fun i => (t :: rest).getD (i + 1) "" == key &&
        !(should_skip_device_token ((t :: rest).getD (i + 1) "") (i + 1)) &&
        decide (i + 1 + 1 < rest.length + 1)) =
        (fun i => rest.getD i "" == key && decide (i + 1 < rest.length)) := by
      funext i
      simp [List.getD_cons_succ, Nat.succ_lt_succ_iff, should_skip_device_token,
        token_is_device]
    rw [hpred]
    cases hf : (List.range rest.length).find? (fun i =>
        rest.getD i "" == key && decide (i + 1 < rest.length)) with
    | none => simp
    | some i => simp [List.getD_cons_succ]

/-- C10 amended.  `parse_index_from_path_by_key` returns the token
immediately following the first occurrence of the keyword in the dot-split
path that is neither the final token nor the literal "Device" sitting at
token position 0 (so position 0 is skipped exactly when the keyword is
"Device"), and the empty string when no such occurrence exists — keyword
absent, or present only as the last token. -/
theorem c10_parse_index_amended (path key : String) :
    parse_index_from_path_by_key path key = amendedParseIndexSpec (splitDots path) key := by
  unfold parse_index_from_path_by_key
  generalize splitDots path = toks
  cases toks with
  | nil => rfl
  | cons t rest =>
    rw [amendedParseIndexSpec_cons]
    by_cases ht : t == key
    · by_cases hd : t == "Device"
      · have hskip : should_skip_device_token t 0 = true := by
          simp [should_skip_device_token, token_is_device, hd]
        simp only [parseIndexScan, ht, if_true, hskip, hd, Bool.not_true,
          Bool.and_false, if_false, Bool.false_eq_true]
        exact parseIndexScan_pos key rest 1 (le_refl 1)
      · have hskip : should_skip_device_token t 0 = false := by
          simp [should_skip_device_token, token_is_device, hd]
        simp [parseIndexScan, ht, hskip, hd]
    · simp only [parseIndexScan, ht, if_false, Bool.false_eq_true, Bool.false_and]
      exact parseIndexScan_pos key rest 1 (le_refl 1)

theorem foldE_inv {σ α : Type} (P : σ → Prop) (f : σ → α → Except PyErr σ) (l : List α)
    (hstep : ∀ s a s', a ∈ l → P s → f s a = .ok s' → P s') :
    ∀ s s', P s → foldE f s l = .ok s' → P s' := by
  induction l with
  | nil =>
    intro s s' hp hfold
    cases hfold
    exact hp
  | cons a as ih =>
    intro s s' hp hfold
    unfold foldE at hfold
    cases hf : f s a with
    | error e => rw [hf] at hfold; cases hfold
    | ok s1 =>
      rw [hf] at hfold
      exact ih (fun s2 a' s3 ha' => hstep s2 a' s3 (List.mem_cons_of_mem _ ha')) s1 s'
        (hstep s a s1 (List.mem_cons_self a as) hp hf) hfold

theorem ProvOf_path_eq {E : List NBEntry} {b b' : BSS} {s : Station}
    (hp : b'.path = b.path) : ProvOf E b s → ProvOf E b' s := by
  rintro ⟨e, he, h1, h2, h3, h4⟩
  exact ⟨e, he, h1, by rw [hp]; exact h2, h3, h4⟩

theorem BssProv_of_empty {E : List NBEntry} {b : BSS}
    (h : b.connected_stations = []) : BssProv E b := by
  intro s hs
  rw [h] at hs
  cases hs

theorem BssProv_add {E : List NBEntry} {b : BSS} {s : Station}
    (hb : BssProv E b) (hs : ProvOf E b s) : BssProv E (b.add_connected_station s) := by
  intro x hx
  rcases List.mem_append.mp hx with hx | hx
  · exact ProvOf_path_eq rfl (hb x hx)
  · rcases List.mem_singleton.mp hx with rfl
    exact ProvOf_path_eq rfl hs

theorem RadioProv_addBss {E : List NBEntry} {r : Radio} {b : BSS}
    (hr : RadioProv E r) (hb : BssProv E b) : RadioProv E (r.add_bss b) := by
  intro x hx
  rcases List.mem_append.mp hx with hx | hx
  · exact hr x hx
  · rcases List.mem_singleton.mp hx with rfl
    exact hb

theorem RadioProv_setBss {E : List NBEntry} {r : Radio} {i : Nat} {b : BSS}
    (hr : RadioProv E r) (hb : BssProv E b) :
    RadioProv E { r with bsses := r.bsses.set i b } := by
  intro x hx
  rcases List.mem_or_eq_of_mem_set hx with hx | rfl
  · exact hr x hx
  · exact hb

theorem RadioProv_getD {E : List NBEntry} {l : List BSS} {i : Nat}
    (hr : ∀ b ∈ l, BssProv E b) : BssProv E (l.getD i BSS.dummy) := by
  rcases Nat.lt_or_ge i l.length with hlt | hge
  · rw [List.getD_eq_getElem l _ hlt]
    exact hr _ (List.getElem_mem hlt)
  · rw [List.getD_eq_default l _ hge]
    exact BssProv_of_empty rfl

theorem AgentProv_radios_eq {E : List NBEntry} {a a' : Agent}
    (h : a'.radios = a.radios) : AgentProv E a → AgentProv E a' := by
  intro hp r hr
  rw [h] at hr
  exact hp r hr

theorem AgentProv_dummy {E : List NBEntry} : AgentProv E Agent.dummy := by
  intro r hr
  simp [Agent.dummy, mkAgent] at hr

theorem AgentProv_addRadio {E : List NBEntry} {a : Agent} {r : Radio}
    (ha : AgentProv E a) (hr : RadioProv E r) :
    AgentProv E { a with radios := a.radios ++ [r] } := by
  intro x hx
  rcases List.mem_append.mp hx with hx | hx
  · exact ha x hx
  · rcases List.mem_singleton.mp hx with rfl
    exact hr

theorem AgentProv_setRadio {E : List NBEntry} {a : Agent} {i : Nat} {r : Radio}
    (ha : AgentProv E a) (hr : RadioProv E r) :
    AgentProv E { a with radios := a.radios.set i r } := by
  intro x hx
  rcases List.mem_or_eq_of_mem_set hx with hx | rfl
  · exact ha x hx
  · exact hr

theorem AgentProv_radioGetD {E : List NBEntry} {a : Agent} {i : Nat}
    (ha : AgentProv E a) : RadioProv E (a.radios.getD i Radio.dummy) := by
  rcases Nat.lt_or_ge i a.radios.length with hlt | hge
  · rw [List.getD_eq_getElem a.radios _ hlt]
    exact ha _ (List.getElem_mem hlt)
  · rw [List.getD_eq_default a.radios _ hge]
    intro b hb
    simp [Radio.dummy] at hb

theorem StaProv_agents_eq {E : List NBEntry} {h h' : Heap}
    (heq : h'.agents = h.agents) : StaProv E h → StaProv E h' := by
  intro hp a ha
  rw [heq] at ha
  exact hp a ha

theorem StaProv_getAgent {E : List NBEntry} {h : Heap} (i : Nat)
    (hp : StaProv E h) : AgentProv E (getAgent h i) := by
  unfold getAgent
  rcases Nat.lt_or_ge i h.agents.length with hlt | hge
  · rw [List.getD_eq_getElem h.agents _ hlt]
    exact hp _ (List.getElem_mem hlt)
  · rw [List.getD_eq_default h.agents _ hge]
    exact AgentProv_dummy

theorem StaProv_setAgent {E : List NBEntry} {h : Heap} {i : Nat} {a : Agent}
    (hp : StaProv E h) (ha : AgentProv E a) : StaProv E (setAgent h i a) := by
  intro x hx
  rcases List.mem_or_eq_of_mem_set hx with hx | rfl
  · exact hp x hx
  · exact ha

theorem StaProv_updAgent {E : List NBEntry} {h : Heap} {i : Nat} {f : Agent → Agent}
    (hp : StaProv E h) (hf : ∀ a, AgentProv E a → AgentProv E (f a)) :
    StaProv E (updAgent h i f) :=
  StaProv_setAgent hp (hf _ (StaProv_getAgent i hp))

theorem StaProv_allocAgent {E : List NBEntry} {h : Heap} {a : Agent}
    (hp : StaProv E h) (ha : AgentProv E a) : StaProv E (allocAgent h a).1 := by
  intro x hx
  rcases List.mem_append.mp hx with hx | hx
  · exact hp x hx
  · rcases List.mem_singleton.mp hx with rfl
    exact ha

theorem StaProv_updIface {E : List NBEntry} {h : Heap} {i : Nat}
    {f : Interface → Interface} (hp : StaProv E h) : StaProv E (updIface h i f) :=
  StaProv_agents_eq rfl hp

theorem StaProv_updRadio {E : List NBEntry} {h : Heap} {aid ridx : Nat}
    {f : Radio → Radio} (hp : StaProv E h)
    (hf : ∀ r, RadioProv E r → RadioProv E (f r)) : StaProv E (updRadio h aid ridx f) := by
  apply StaProv_updAgent hp
  intro a ha
  exact AgentProv_setRadio ha (hf _ (AgentProv_radioGetD ha))

theorem StaProv_updBss {E : List NBEntry} {h : Heap} {aid ridx bidx : Nat}
    {f : BSS → BSS} (hp : StaProv E h)
    (hf : ∀ b, BssProv E b → BssProv E (f b)) : StaProv E (updBss h aid ridx bidx f) := by
  apply StaProv_updRadio hp
  intro r hr
  exact RadioProv_setBss hr (hf _ (RadioProv_getD hr))

theorem AgentProv_mk {E : List NBEntry} (p : NBPath) (ps : Params) :
    AgentProv E (mkAgent p ps) := by
  intro r hr
  simp [mkAgent] at hr

theorem RadioProv_mk {E : List NBEntry} (p : NBPath) (ps : Params) :
    RadioProv E (mkRadio p ps) := by
  intro b hb
  simp [mkRadio] at hb

theorem BssProv_interface_set {E : List NBEntry} {b : BSS} (i : Nat)
    (hb : BssProv E b) : BssProv E { b with interface := some i } := by
  intro s hs
  exact ProvOf_path_eq rfl (hb s hs)

theorem RadioProv_setLast {E : List NBEntry} {r : Radio} (i : Nat)
    (hr : RadioProv E r) : RadioProv E (setLastBssIface r i) := by
  intro b hb
  unfold setLastBssIface at hb
  rcases List.mem_append.mp hb with hb | hb
  · exact hr b (List.dropLast_subset _ hb)
  · cases hl : r.bsses.getLast? with
    | none => rw [hl] at hb; cases hb
    | some blast =>
      rw [hl] at hb
      rcases List.mem_singleton.mp hb with rfl
      exact BssProv_interface_set i (hr blast (List.mem_of_mem_getLast? hl))

theorem agentAddRadio_prov {E : List NBEntry} {h : Heap} {aid : Nat} {r : Radio}
    (hp : StaProv E h) (hr : RadioProv E r) : StaProv E (agentAddRadio h aid r) :=
  StaProv_updAgent hp (fun _ ha => AgentProv_addRadio ha hr)

theorem agentAddConnectedStation_prov {E : List NBEntry} {h : Heap} {aid : Nat}
    {sta : Station} (hp : StaProv E h) : StaProv E (agentAddConnectedStation h aid sta) :=
  StaProv_updAgent hp (fun _ ha => AgentProv_radios_eq rfl ha)

theorem agentAddInterface_prov {E : List NBEntry} {h : Heap} {aid ifid : Nat} {h' : Heap}
    (hp : StaProv E h) (heq : agentAddInterface h aid ifid = .ok h') : StaProv E h' := by
  simp only [agentAddInterface] at heq
  cases hs : pyKeyedSort ((getAgent h aid).interfaces ++ [ifid])
      (fun i => paramsGetE (getIface h i).params "wired") with
  | error e => rw [hs, exc_bind_err] at heq; cases heq
  | ok sorted =>
    rw [hs, exc_bind_ok, exc_pure] at heq
    cases heq
    exact StaProv_setAgent hp (AgentProv_radios_eq rfl (StaProv_getAgent aid hp))

theorem agentAddChildAgent_prov {E : List NBEntry} {h : Heap} {aid ca : Nat} {h' : Heap}
    (hp : StaProv E h) (heq : agentAddChildAgent h aid ca = .ok h') : StaProv E h' := by
  simp only [agentAddChildAgent] at heq
  cases hs : pyKeyedSort ((getAgent h aid).children ++ [ca])
      (fun i => pure (Agent.get_id (getAgent h i))) with
  | error e => rw [hs, exc_bind_err] at heq; cases heq
  | ok sorted =>
    rw [hs, exc_bind_ok, exc_pure] at heq
    cases heq
    exact StaProv_setAgent hp (AgentProv_radios_eq rfl (StaProv_getAgent aid hp))

theorem ifaceAddNeighbor_agents {h : Heap} {i : Nat} {nb : Neighbor} {h' : Heap}
    (heq : ifaceAddNeighbor h i nb = .ok h') : h'.agents = h.agents := by
  simp only [ifaceAddNeighbor] at heq
  cases hs : pyKeyedSort ((getIface h i).neighbors ++ [nb])
      (fun n => paramsGetE n.params "ID") with
  | error e => rw [hs, exc_bind_err] at heq; cases heq
  | ok sorted =>
    rw [hs, exc_bind_ok, exc_pure] at heq
    cases heq
    rfl

theorem ifaceCoerceMedia_agents {h : Heap} {a b : Nat} {sw : Value} {hh : Heap}
    (heq : ifaceCoerceMedia h a b sw = .ok hh) : hh.agents = h.agents := by
  unfold ifaceCoerceMedia at heq
  by_cases ht : pyTruthy sw = true
  · rw [if_pos ht] at heq
    cases h1 : paramsGetE (getIface h b).params "wireless" with
    | error e => rw [h1, exc_bind_err] at heq; cases heq
    | ok cw =>
      rw [h1, exc_bind_ok] at heq
      by_cases hc : pyTruthy cw = true
      · rw [hc] at heq
        simp only [Bool.not_true, Bool.false_eq_true, if_false, exc_pure] at heq
        cases heq
        rfl
      · rw [Bool.eq_false_iff.mpr hc] at heq
        simp only [Bool.not_false, if_true] at heq
        cases h2 : paramsGetE (getIface h a).params "MediaTypeString" with
        | error e => rw [h2, exc_bind_err] at heq; cases heq
        | ok smts =>
          rw [h2, exc_bind_ok] at heq
          cases h3 : paramsGetE
              (getIface (updIface h b (fun c =>
                { c with params := paramsSet c.params "MediaTypeString" smts })) a).params
              "wired" with
          | error e => rw [h3, exc_bind_err] at heq; cases heq
          | ok swired =>
            rw [h3, exc_bind_ok] at heq
            cases h4 : paramsGetE
                (getIface (updIface (updIface h b (fun c =>
                  { c with params := paramsSet c.params "MediaTypeString" smts })) b (fun c =>
                  { c with params := paramsSet c.params "wired" swired })) a).params
                "wireless" with
            | error e => rw [h4, exc_bind_err] at heq; cases heq
            | ok sw2 =>
              rw [h4, exc_bind_ok, exc_pure] at heq
              cases heq
              rfl
  · rw [if_neg ht] at heq
    cases h1 : paramsGetE (getIface h b).params "wireless" with
    | error e => rw [h1, exc_bind_err] at heq; cases heq
    | ok cw =>
      rw [h1, exc_bind_ok] at heq
      rw [Bool.eq_false_iff.mpr ht] at heq
      by_cases hc : pyTruthy cw = true
      · rw [hc] at heq
        simp only [Bool.not_false, Bool.true_and, if_true] at heq
        cases h2 : paramsGetE (getIface h b).params "MediaTypeString" with
        | error e => rw [h2, exc_bind_err] at heq; cases heq
        | ok cmts =>
          rw [h2, exc_bind_ok] at heq
          cases h3 : paramsGetE
              (getIface (updIface h a (fun s =>
                { s with params := paramsSet s.params "MediaTypeString" cmts })) b).params
              "wired" with
          | error e => rw [h3, exc_bind_err] at heq; cases heq
          | ok cwired =>
            rw [h3, exc_bind_ok] at heq
            cases h4 : paramsGetE
                (getIface (updIface (updIface h a (fun s =>
                  { s with params := paramsSet s.params "MediaTypeString" cmts })) a (fun s =>
                  { s with params := paramsSet s.params "wired" cwired })) b).params
                "wireless" with
            | error e => rw [h4, exc_bind_err] at heq; cases heq
            | ok cw2 =>
              rw [h4, exc_bind_ok, exc_pure] at heq
              cases heq
              rfl
      · rw [Bool.eq_false_iff.mpr hc] at heq
        simp only [Bool.false_and, Bool.false_eq_true, if_false, exc_pure] at heq
        cases heq
        rfl

theorem ifaceAddChild_agents {h : Heap} {a b : Nat} {h' : Heap}
    (heq : ifaceAddChild h a b = .ok h') : h'.agents = h.agents := by
  unfold ifaceAddChild at heq
  cases h0 : paramsGetE (getIface h a).params "wireless" with
  | error e => rw [h0, exc_bind_err] at heq; cases heq
  | ok sw =>
    rw [h0, exc_bind_ok] at heq
    cases hco : ifaceCoerceMedia h a b sw with
    | error e => rw [hco, exc_bind_err] at heq; cases heq
    | ok hh =>
      rw [hco, exc_bind_ok] at heq
      simp only [] at heq
      cases hs : pyKeyedSort ((getIface hh a).children ++ [b])
          (fun i => paramsGetE (getIface hh i).params "MACAddress") with
      | error e => rw [hs, exc_bind_err] at heq; cases heq
      | ok sorted =>
        rw [hs, exc_bind_ok, exc_pure] at heq
        cases heq
        exact (ifaceCoerceMedia_agents hco : hh.agents = h.agents)

theorem ifaceAddConnectedStation_prov {E : List NBEntry} {h : Heap} {ifid : Nat}
    {sta : Station} {h' : Heap} (hp : StaProv E h)
    (heq : ifaceAddConnectedStation h ifid sta = .ok h') : StaProv E h' := by
  unfold ifaceAddConnectedStation at heq
  cases hpa : (getIface h ifid).parentAgent with
  | none => rw [hpa] at heq; cases heq
  | some paid =>
    rw [hpa] at heq
    cases heq
    exact StaProv_updIface (agentAddConnectedStation_prov hp)

theorem StaProv_updBss_add {E : List NBEntry} {h : Heap} {aid ridx bidx : Nat}
    {sta : Station} (hp : StaProv E h)
    (hsta : ProvOf E (getBss h aid ridx bidx) sta) :
    StaProv E (updBss h aid ridx bidx (fun b => b.add_connected_station sta)) := by
  unfold updBss updRadio updAgent
  apply StaProv_setAgent hp
  apply AgentProv_setRadio (StaProv_getAgent aid hp)
  apply RadioProv_setBss (AgentProv_radioGetD (StaProv_getAgent aid hp))
  apply BssProv_add (RadioProv_getD (AgentProv_radioGetD (StaProv_getAgent aid hp)))
  exact hsta

theorem stage0_prov {E : List NBEntry} {st : MState} {e : NBEntry} {st' : MState}
    (hp : StaProv E st.heap) (heq : stage0 st e = .ok st') : StaProv E st'.heap := by
  unfold stage0 at heq
  split at heq
  · cases h1 : paramsGetE e.params "ControllerID" with
    | error e2 => rw [h1, exc_bind_err] at heq; cases heq
    | ok cid =>
      rw [h1, exc_bind_ok, exc_pure] at heq
      cases heq
      exact hp
  · cases heq
    exact hp

theorem stage1_prov {E : List NBEntry} {st : MState} {e : NBEntry} {st' : MState}
    (hp : StaProv E st.heap) (heq : stage1 st e = .ok st') : StaProv E st'.heap := by
  unfold stage1 at heq
  split at heq
  · cases heq
    exact StaProv_allocAgent hp (AgentProv_mk _ _)
  · cases heq
    exact hp

theorem stage2Step_prov {E : List NBEntry} {path : NBPath} {params : Params}
    {st : MState} {aid : Nat} {st' : MState}
    (hp : StaProv E st.heap) (heq : stage2Step path params st aid = .ok st') :
    StaProv E st'.heap := by
  unfold stage2Step at heq
  split at heq
  · cases hmk : mkInterface path params with
    | error e2 => rw [hmk, exc_bind_err] at heq; cases heq
    | ok ifObj =>
      rw [hmk, exc_bind_ok] at heq
      simp only [] at heq
      cases ha2 : agentAddInterface (allocIface st.heap { ifObj with parentAgent := some aid }).1
          aid (allocIface st.heap { ifObj with parentAgent := some aid }).2 with
      | error e2 => rw [ha2, exc_bind_err] at heq; cases heq
      | ok h2 =>
        rw [ha2, exc_bind_ok, exc_pure] at heq
        cases heq
        have hp2 : StaProv E (allocIface st.heap { ifObj with parentAgent := some aid }).1 :=
          StaProv_agents_eq rfl hp
        exact agentAddInterface_prov hp2 ha2
  · cases heq
    exact hp

theorem stage2_prov {E : List NBEntry} {st : MState} {e : NBEntry} {st' : MState}
    (hp : StaProv E st.heap) (heq : stage2 st e = .ok st') : StaProv E st'.heap := by
  unfold stage2 at heq
  split at heq
  · exact foldE_inv (fun s => StaProv E s.heap) _ _
      (fun s a s2 _ hps hfa => stage2Step_prov hps hfa) st st' hp heq
  · cases heq
    exact hp

theorem stage3IfaceStep_prov {E : List NBEntry} {path : NBPath} {params : Params}
    {aid : Nat} {acc : BackhaulCtx} {ifid : Nat} {acc' : BackhaulCtx}
    (hp : StaProv E acc.1.heap)
    (heq : stage3IfaceStep path params aid acc ifid = .ok acc') :
    StaProv E acc'.1.heap := by
  obtain ⟨st, cbi, cag⟩ := acc
  unfold stage3IfaceStep at heq
  simp only [] at heq
  split at heq
  · cases hn : ifaceAddNeighbor st.heap ifid ⟨path, params⟩ with
    | error e => rw [hn, exc_bind_err] at heq; cases heq
    | ok h1 =>
      rw [hn, exc_bind_ok] at heq
      have hp1 : StaProv E h1 := StaProv_agents_eq (ifaceAddNeighbor_agents hn) hp
      cases hcid : getControllerIdE { st with heap := h1 } with
      | error e => rw [hcid, exc_bind_err] at heq; cases heq
      | ok cid =>
        rw [hcid, exc_bind_ok] at heq
        split at heq
        · cases hmt : paramsGetE (getIface h1 ifid).params "MediaType" with
          | error e => rw [hmt, exc_bind_err] at heq; cases heq
          | ok mt =>
            rw [hmt, exc_bind_ok] at heq
            cases hle : pyLeOneE mt with
            | error e => rw [hle, exc_bind_err] at heq; cases heq
            | ok isEth =>
              rw [hle, exc_bind_ok] at heq
              split at heq
              · cases heq
                exact StaProv_agents_eq rfl hp1
              · cases heq
                exact hp1
        · cases heq
          exact hp1
  · cases heq
    exact hp

theorem stage3AgentStep_prov {E : List NBEntry} {path : NBPath} {params : Params}
    {acc : BackhaulCtx} {aid : Nat} {acc' : BackhaulCtx}
    (hp : StaProv E acc.1.heap)
    (heq : stage3AgentStep path params acc aid = .ok acc') : StaProv E acc'.1.heap := by
  unfold stage3AgentStep at heq
  exact foldE_inv (fun a => StaProv E a.1.heap) _ _
    (fun s a s2 _ hps hfa => stage3IfaceStep_prov hps hfa) acc acc' hp heq

theorem stage3_prov {E : List NBEntry} {st : MState} {e : NBEntry} {out : BackhaulCtx}
    (hp : StaProv E st.heap) (heq : stage3 st e = .ok out) : StaProv E out.1.heap := by
  unfold stage3 at heq
  split at heq
  · exact foldE_inv (fun a => StaProv E a.1.heap) _ _
      (fun s a s2 _ hps hfa => stage3AgentStep_prov hps hfa) (st, none, none) out hp heq
  · cases heq
    exact hp

theorem ethIfaceScan_prov {E : List NBEntry} :
    ∀ (l : List Nat) (st : MState) (out : MState × Option Nat),
    StaProv E st.heap → ethIfaceScan st l = .ok out → StaProv E out.1.heap := by
  intro l
  induction l with
  | nil =>
    intro st out hp heq
    cases heq
    exact hp
  | cons ifid rest ih =>
    intro st out hp heq
    unfold ethIfaceScan at heq
    cases hmt : paramsGetE (getIface st.heap ifid).params "MediaType" with
    | error e => rw [hmt, exc_bind_err] at heq; cases heq
    | ok mt =>
      rw [hmt, exc_bind_ok] at heq
      cases hle : pyLeOneE mt with
      | error e => rw [hle, exc_bind_err] at heq; cases heq
      | ok isEth =>
        rw [hle, exc_bind_ok] at heq
        split at heq
        · cases heq
          exact StaProv_agents_eq rfl hp
        · exact ih st out hp heq

theorem stage3bStep_prov {E : List NBEntry} {acc : BackhaulCtx} {aid : Nat}
    {acc' : BackhaulCtx} (hp : StaProv E acc.1.heap)
    (heq : stage3bStep acc aid = .ok acc') : StaProv E acc'.1.heap := by
  obtain ⟨st, cbi, cag⟩ := acc
  unfold stage3bStep at heq
  simp only [] at heq
  cases hcid : getControllerIdE st with
  | error e => rw [hcid, exc_bind_err] at heq; cases heq
  | ok cid =>
    rw [hcid, exc_bind_ok] at heq
    split at heq
    · cases hscan : ethIfaceScan st (getAgent st.heap aid).interfaces with
      | error e => rw [hscan, exc_bind_err] at heq; cases heq
      | ok r =>
        rw [hscan, exc_bind_ok, exc_pure] at heq
        cases heq
        exact ethIfaceScan_prov _ _ _ hp hscan
    · cases heq
      exact hp

theorem stage3b_prov {E : List NBEntry} {acc : BackhaulCtx} {acc' : BackhaulCtx}
    (hp : StaProv E acc.1.heap) (heq : stage3b acc = .ok acc') : StaProv E acc'.1.heap := by
  unfold stage3b at heq
  split at heq
  · cases heq
    exact hp
  · exact foldE_inv (fun a => StaProv E a.1.heap) _ _
      (fun s a s2 _ hps hfa => stage3bStep_prov hps hfa) acc acc' hp heq

theorem ethBackhaulStep_prov {E : List NBEntry} {cbi cag : Option Nat} {st : MState}
    {ifid : Nat} {st' : MState} (hp : StaProv E st.heap)
    (heq : ethBackhaulStep cbi cag st ifid = .ok st') : StaProv E st'.heap := by
  unfold ethBackhaulStep at heq
  cases hc : interfaceNumberChar (getIface st.heap ifid).path with
  | error e => rw [hc, exc_bind_err] at heq; cases heq
  | ok c =>
    rw [hc, exc_bind_ok] at heq
    split at heq
    · cases cbi with
      | none => cases heq; exact hp
      | some cbiId =>
        simp only [] at heq
        cases hm : (getIface st.heap ifid).get_macE with
        | error e => rw [hm, exc_bind_err] at heq; cases heq
        | ok m =>
          rw [hm, exc_bind_ok] at heq
          cases hm2 : (getIface st.heap cbiId).get_macE with
          | error e => rw [hm2, exc_bind_err] at heq; cases heq
          | ok cbiMac =>
            rw [hm2, exc_bind_ok] at heq
            split at heq
            · cases heq; exact hp
            · cases hch : ifaceIsChild st.heap cbiId m with
              | error e => rw [hch, exc_bind_err] at heq; cases heq
              | ok hasChild =>
                rw [hch, exc_bind_ok] at heq
                split at heq
                · cases hac : ifaceAddChild st.heap cbiId ifid with
                  | error e => rw [hac, exc_bind_err] at heq; cases heq
                  | ok h1 =>
                    rw [hac, exc_bind_ok] at heq
                    try simp only [] at heq
                    cases cag with
                    | none => cases heq
                    | some cagId =>
                      try simp only [] at heq
                      cases hpa : (getIface (ifaceSetOrientation h1 ifid .UP) ifid).parentAgent with
                      | none => rw [hpa] at heq; cases heq
                      | some pa =>
                        rw [hpa] at heq
                        try simp only [] at heq
                        cases hadd : agentAddChildAgent (ifaceSetOrientation h1 ifid .UP) cagId pa with
                        | error e => rw [hadd, exc_bind_err] at heq; cases heq
                        | ok h3 =>
                          rw [hadd, exc_bind_ok, exc_pure] at heq
                          cases heq
                          have hp0 : StaProv E h1 :=
                            StaProv_agents_eq (ifaceAddChild_agents hac) hp
                          have hp1 : StaProv E (ifaceSetOrientation h1 ifid .UP) :=
                            StaProv_agents_eq
                              (rfl : (ifaceSetOrientation h1 ifid .UP).agents = h1.agents) hp0
                          exact agentAddChildAgent_prov hp1 hadd
                · cases heq; exact hp
    · cases heq; exact hp

theorem wifiInnerScan_prov {E : List NBEntry} {entryParams : Params} {childId : Nat} :
    ∀ (l : List Nat) (st : MState) (st' : MState),
    StaProv E st.heap → wifiInnerScan entryParams childId st l = .ok st' →
    StaProv E st'.heap := by
  intro l
  induction l with
  | nil =>
    intro st st' hp heq
    cases heq
    exact hp
  | cons pid rest ih =>
    intro st st' hp heq
    unfold wifiInnerScan at heq
    cases h1 : paramsGetE (getIface st.heap pid).params "MACAddress" with
    | error e => rw [h1, exc_bind_err] at heq; cases heq
    | ok pm =>
      rw [h1, exc_bind_ok] at heq
      cases h2 : paramsGetE entryParams "BackhaulMACAddress" with
      | error e => rw [h2, exc_bind_err] at heq; cases heq
      | ok bm =>
        rw [h2, exc_bind_ok] at heq
        split at heq
        · cases hac : ifaceAddChild st.heap pid childId with
          | error e => rw [hac, exc_bind_err] at heq; cases heq
          | ok h1h =>
            rw [hac, exc_bind_ok] at heq
            try simp only [] at heq
            cases hpa : (getIface (ifaceSetOrientation (ifaceSetOrientation h1h pid .DOWN)
                childId .UP) pid).parentAgent with
            | none => rw [hpa] at heq; cases heq
            | some ppa =>
              rw [hpa] at heq
              try simp only [] at heq
              cases hca : (getIface (ifaceSetOrientation (ifaceSetOrientation h1h pid .DOWN)
                  childId .UP) childId).parentAgent with
              | none => rw [hca] at heq; cases heq
              | some cpa =>
                rw [hca] at heq
                try simp only [] at heq
                cases hadd : agentAddChildAgent (ifaceSetOrientation (ifaceSetOrientation h1h pid .DOWN)
                    childId .UP) ppa cpa with
                | error e => rw [hadd, exc_bind_err] at heq; cases heq
                | ok h4 =>
                  rw [hadd, exc_bind_ok, exc_pure] at heq
                  cases heq
                  have hp0 : StaProv E h1h :=
                    StaProv_agents_eq (ifaceAddChild_agents hac) hp
                  have hp1 : StaProv E (ifaceSetOrientation (ifaceSetOrientation h1h pid .DOWN)
                      childId .UP) :=
                    StaProv_agents_eq
                      (rfl : (ifaceSetOrientation (ifaceSetOrientation h1h pid .DOWN)
                        childId .UP).agents = h1h.agents) hp0
                  exact agentAddChildAgent_prov hp1 hadd
        · exact ih st st' hp heq

theorem wifiOuterStep_prov {E : List NBEntry} {entryParams : Params} {st : MState}
    {ifid : Nat} {st' : MState} (hp : StaProv E st.heap)
    (heq : wifiOuterStep entryParams st ifid = .ok st') : StaProv E st'.heap := by
  unfold wifiOuterStep at heq
  cases h1 : paramsGetE (getIface st.heap ifid).params "MACAddress" with
  | error e => rw [h1, exc_bind_err] at heq; cases heq
  | ok cm =>
    rw [h1, exc_bind_ok] at heq
    cases h2 : paramsGetE entryParams "MACAddress" with
    | error e => rw [h2, exc_bind_err] at heq; cases heq
    | ok em =>
      rw [h2, exc_bind_ok] at heq
      split at heq
      · exact wifiInnerScan_prov _ _ _ hp heq
      · cases heq; exact hp

theorem stage4_prov {E : List NBEntry} {st : MState} {cbi cag : Option Nat} {e : NBEntry}
    {out : MState × Bool} (hp : StaProv E st.heap)
    (heq : stage4 st cbi cag e = .ok out) : StaProv E out.1.heap := by
  unfold stage4 at heq
  split at heq
  · cases h1 : paramsGetE e.params "LinkType" with
    | error e2 => rw [h1, exc_bind_err] at heq; cases heq
    | ok lt =>
      rw [h1, exc_bind_ok] at heq
      split at heq
      · cases heq; exact hp
      · split at heq
        · cases hf : foldE (ethBackhaulStep cbi cag) st (pdictValues st.ifaceDict) with
          | error e2 => rw [hf, exc_bind_err] at heq; cases heq
          | ok st2 =>
            rw [hf, exc_bind_ok, exc_pure] at heq
            cases heq
            exact foldE_inv (fun s => StaProv E s.heap) _ _
              (fun s a s2 _ hps hfa => ethBackhaulStep_prov hps hfa) st st2 hp hf
        · split at heq
          · cases hf : foldE (wifiOuterStep e.params) st (pdictValues st.ifaceDict) with
            | error e2 => rw [hf, exc_bind_err] at heq; cases heq
            | ok st2 =>
              rw [hf, exc_bind_ok, exc_pure] at heq
              cases heq
              exact foldE_inv (fun s => StaProv E s.heap) _ _
                (fun s a s2 _ hps hfa => wifiOuterStep_prov hps hfa) st st2 hp hf
          · cases heq; exact hp
  · cases heq; exact hp

theorem stage5Step_prov {E : List NBEntry} {path : NBPath} {params : Params}
    {st : MState} {aid : Nat} {st' : MState} (hp : StaProv E st.heap)
    (heq : stage5Step path params st aid = .ok st') : StaProv E st'.heap := by
  unfold stage5Step at heq
  split at heq
  · cases heq
    exact agentAddRadio_prov hp (RadioProv_mk _ _)
  · cases heq
    exact hp

theorem stage5_prov {E : List NBEntry} {st : MState} {e : NBEntry} {st' : MState}
    (hp : StaProv E st.heap) (heq : stage5 st e = .ok st') : StaProv E st'.heap := by
  unfold stage5 at heq
  split at heq
  · exact foldE_inv (fun s => StaProv E s.heap) _ _
      (fun s a s2 _ hps hfa => stage5Step_prov hps hfa) st st' hp heq
  · cases heq
    exact hp

theorem stage6RadioStep_prov {E : List NBEntry} {path : NBPath} {params : Params}
    {aid : Nat} {st : MState} {ridx : Nat} {st' : MState} (hp : StaProv E st.heap)
    (heq : stage6RadioStep path params aid st ridx = .ok st') : StaProv E st'.heap := by
  unfold stage6RadioStep at heq
  simp only [] at heq
  split at heq
  · try simp only [] at heq
    have hp1 : StaProv E (updRadio st.heap aid ridx (fun r0 => r0.add_bss (mkBSS path params))) :=
      StaProv_updRadio hp (fun r hr => RadioProv_addBss hr (BssProv_of_empty rfl))
    cases hscan : bssIfaceScan
        (updRadio st.heap aid ridx (fun r0 => r0.add_bss (mkBSS path params)))
        (getRadio st.heap aid ridx).params
        (pdictValues st.ifaceDict) with
    | error e => rw [hscan, exc_bind_err] at heq; cases heq
    | ok found =>
      rw [hscan, exc_bind_ok] at heq
      cases found with
      | some ifid =>
        try simp only [] at heq
        cases heq
        exact StaProv_updRadio hp1 (fun r hr => RadioProv_setLast ifid hr)
      | none =>
        cases heq
        exact hp1
  · cases heq
    exact hp

theorem stage6_prov {E : List NBEntry} {st : MState} {e : NBEntry} {st' : MState}
    (hp : StaProv E st.heap) (heq : stage6 st e = .ok st') : StaProv E st'.heap := by
  unfold stage6 at heq
  split at heq
  · refine foldE_inv (fun s => StaProv E s.heap) _ _ ?_ st st' hp heq
    intro s a s2 _ hps hfa
    unfold stage6AgentStep at hfa
    exact foldE_inv (fun s3 => StaProv E s3.heap) _ _
      (fun s3 a2 s4 _ hps2 hfa2 => stage6RadioStep_prov hps2 hfa2) s s2 hps hfa
  · cases heq
    exact hp

theorem stage7BssStep_prov {E : List NBEntry} {path : NBPath} {params : Params}
    {aid ridx : Nat} {acc : MState × List Station} {bidx : Nat}
    {acc' : MState × List Station}
    (hE : ∃ e ∈ E, e.path = path ∧ e.params = params)
    (hmatch : matchSegIdx "STA" path = true)
    (hp : StaProv E acc.1.heap)
    (heq : stage7BssStep path params aid ridx acc bidx = .ok acc') :
    StaProv E acc'.1.heap := by
  obtain ⟨st, slist⟩ := acc
  unfold stage7BssStep at heq
  simp only [] at heq
  split at heq
  case isTrue hguard =>
    obtain ⟨e, heE, hep, hepar⟩ := hE
    have hprov : ProvOf E (getBss st.heap aid ridx bidx) (mkStation path params) := by
      refine ⟨e, heE, ?_, ?_, ?_, ?_⟩
      · rw [hep]; exact hmatch
      · rw [hep]; exact hguard
      · rw [hep]; rfl
      · rw [hepar]; rfl
    have hp1 : StaProv E (updBss st.heap aid ridx bidx
        (fun b => b.add_connected_station (mkStation path params))) :=
      StaProv_updBss_add hp hprov
    cases hif : (getBss (updBss st.heap aid ridx bidx
        (fun b => b.add_connected_station (mkStation path params))) aid ridx bidx).interface with
    | none => rw [hif] at heq; cases heq
    | some ifid =>
      rw [hif] at heq
      try simp only [] at heq
      cases hpa : (getIface (ifaceSetOrientation (updBss st.heap aid ridx bidx
          (fun b => b.add_connected_station (mkStation path params))) ifid .DOWN)
          ifid).parentAgent with
      | none => rw [hpa] at heq; cases heq
      | some paid =>
        rw [hpa] at heq
        try simp only [] at heq
        have hp3 : StaProv E (ifaceSetOrientation (updBss st.heap aid ridx bidx
            (fun b => b.add_connected_station (mkStation path params))) ifid .DOWN) :=
          StaProv_agents_eq rfl hp1
        cases hic : agentIsChild (ifaceSetOrientation (updBss st.heap aid ridx bidx
            (fun b => b.add_connected_station (mkStation path params))) ifid .DOWN) paid
            (mkStation path params).get_mac with
        | error e2 => rw [hic, exc_bind_err] at heq; cases heq
        | ok isAgentSta =>
          rw [hic, exc_bind_ok] at heq
          split at heq
          · cases hadd : ifaceAddConnectedStation (ifaceSetOrientation (updBss st.heap aid ridx bidx
                (fun b => b.add_connected_station (mkStation path params))) ifid .DOWN) ifid
                (mkStation path params) with
            | error e2 => rw [hadd, exc_bind_err] at heq; cases heq
            | ok h4 =>
              rw [hadd, exc_bind_ok] at heq
              try simp only [] at heq
              cases heq
              exact ifaceAddConnectedStation_prov hp3 hadd
          · try simp only [] at heq
            cases heq
            exact hp3
  case isFalse =>
    cases heq
    exact hp

theorem stage7_prov {E : List NBEntry} {st : MState} {e : NBEntry}
    {out : MState × List Station} (heE : e ∈ E) (hp : StaProv E st.heap)
    (heq : stage7 st e = .ok out) : StaProv E out.1.heap := by
  unfold stage7 at heq
  split at heq
  case isTrue hmatch =>
    refine foldE_inv (fun a => StaProv E a.1.heap) _ _ ?_ (st, []) out hp heq
    intro s a s2 _ hps hfa
    unfold stage7AgentStep at hfa
    refine foldE_inv (fun a2 => StaProv E a2.1.heap) _ _ ?_ s s2 hps hfa
    intro s3 a3 s4 _ hps3 hfa3
    unfold stage7RadioStep at hfa3
    exact foldE_inv (fun a4 => StaProv E a4.1.heap) _ _
      (fun s5 a5 s6 _ hps5 hfa5 =>
        stage7BssStep_prov ⟨e, heE, rfl, rfl⟩ hmatch hps5 hfa5) s3 s4 hps3 hfa3
  case isFalse =>
    cases heq
    exact hp

theorem stage8_state {st : MState} {slist : List Station} {e : NBEntry} {st' : MState}
    (heq : stage8 st slist e = .ok st') : st' = st := by
  unfold stage8 at heq
  split at heq
  · cases hscan : stage8Scan e.params slist with
    | error e2 => rw [hscan, exc_bind_err] at heq; cases heq
    | ok l =>
      rw [hscan, exc_bind_ok, exc_pure] at heq
      cases heq
      rfl
  · cases heq
    rfl

theorem stage9RadioStep_prov {E : List NBEntry} {path : NBPath} {params : Params}
    {aid : Nat} {st : MState} {ridx : Nat} {st' : MState} (hp : StaProv E st.heap)
    (heq : stage9RadioStep path params aid st ridx = .ok st') : StaProv E st'.heap := by
  unfold stage9RadioStep at heq
  simp only [] at heq
  split at heq
  · cases h1 : paramsGetE params "SignalStrength" with
    | error e => rw [h1, exc_bind_err] at heq; cases heq
    | ok ss =>
      rw [h1, exc_bind_ok] at heq
      try simp only [] at heq
      cases heq
      exact hp
  · cases heq
    exact hp

theorem stage9_prov {E : List NBEntry} {st : MState} {e : NBEntry} {st' : MState}
    (hp : StaProv E st.heap) (heq : stage9 st e = .ok st') : StaProv E st'.heap := by
  unfold stage9 at heq
  split at heq
  · refine foldE_inv (fun s => StaProv E s.heap) _ _ ?_ st st' hp heq
    intro s a s2 _ hps hfa
    unfold stage9AgentStep at hfa
    exact foldE_inv (fun s3 => StaProv E s3.heap) _ _
      (fun s3 a2 s4 _ hps2 hfa2 => stage9RadioStep_prov hps2 hfa2) s s2 hps hfa
  · cases heq
    exact hp

theorem processEntry_prov {E : List NBEntry} {st : MState} {e : NBEntry} {st' : MState}
    (heE : e ∈ E) (hp : StaProv E st.heap) (heq : processEntry st e = .ok st') :
    StaProv E st'.heap := by
  unfold processEntry at heq
  cases h0 : stage0 st e with
  | error e2 => rw [h0, exc_bind_err] at heq; cases heq
  | ok st0 =>
    rw [h0, exc_bind_ok] at heq
    have hp0 := stage0_prov hp h0
    cases h1 : stage1 st0 e with
    | error e2 => rw [h1, exc_bind_err] at heq; cases heq
    | ok st1 =>
      rw [h1, exc_bind_ok] at heq
      have hp1 := stage1_prov hp0 h1
      cases h2 : stage2 st1 e with
      | error e2 => rw [h2, exc_bind_err] at heq; cases heq
      | ok st2 =>
        rw [h2, exc_bind_ok] at heq
        have hp2 := stage2_prov hp1 h2
        cases h3 : stage3 st2 e with
        | error e2 => rw [h3, exc_bind_err] at heq; cases heq
        | ok ctx3 =>
          rw [h3, exc_bind_ok] at heq
          have hp3 := stage3_prov hp2 h3
          cases h3b : stage3b ctx3 with
          | error e2 => rw [h3b, exc_bind_err] at heq; cases heq
          | ok ctx =>
            rw [h3b, exc_bind_ok] at heq
            have hp3b := stage3b_prov hp3 h3b
            cases h4 : stage4 ctx.1 ctx.2.1 ctx.2.2 e with
            | error e2 => rw [h4, exc_bind_err] at heq; cases heq
            | ok s4 =>
              rw [h4, exc_bind_ok] at heq
              have hp4 := stage4_prov hp3b h4
              split at heq
              · cases heq
                exact hp4
              · cases h5 : stage5 s4.1 e with
                | error e2 => rw [h5, exc_bind_err] at heq; cases heq
                | ok st5 =>
                  rw [h5, exc_bind_ok] at heq
                  have hp5 := stage5_prov hp4 h5
                  cases h6 : stage6 st5 e with
                  | error e2 => rw [h6, exc_bind_err] at heq; cases heq
                  | ok st6 =>
                    rw [h6, exc_bind_ok] at heq
                    have hp6 := stage6_prov hp5 h6
                    cases h7 : stage7 st6 e with
                    | error e2 => rw [h7, exc_bind_err] at heq; cases heq
                    | ok s7 =>
                      rw [h7, exc_bind_ok] at heq
                      have hp7 := stage7_prov heE hp6 h7
                      cases h8 : stage8 s7.1 s7.2 e with
                      | error e2 => rw [h8, exc_bind_err] at heq; cases heq
                      | ok st8 =>
                        rw [h8, exc_bind_ok] at heq
                        have hp8 : StaProv E st8.heap := by
                          rw [stage8_state h8]
                          exact hp7
                        exact stage9_prov hp8 heq

theorem marshallEntries_prov {entries : List NBEntry} {st st' : MState}
    (hp : StaProv entries st.heap)
    (heq : marshallEntries st entries = .ok st') : StaProv entries st'.heap := by
  unfold marshallEntries at heq
  exact foldE_inv (fun s => StaProv entries s.heap) _ _
    (fun s a s2 ha hps hfa => processEntry_prov ha hps hfa) st st' hp heq

theorem markControllerFoldl_prov {E : List NBEntry} {cid : Option Value} :
    ∀ (ids : List Nat) (acc : Heap × Option Nat), StaProv E acc.1 →
    StaProv E (ids.foldl (markControllerStep cid) acc).1 := by
  intro ids
  induction ids with
  | nil => intro acc hp; exact hp
  | cons aid rest ih =>
    intro acc hp
    rw [List.foldl_cons]
    apply ih
    unfold markControllerStep
    cases cid with
    | none => exact hp
    | some c =>
      by_cases hm : (getAgent acc.1 aid).get_id == c
      · simp only [hm, if_true]
        exact StaProv_setAgent hp (AgentProv_radios_eq rfl (StaProv_getAgent aid hp))
      · simp only [hm, if_false]
        exact hp

theorem mkTopology_prov {E : List NBEntry} {h : Heap} {ids : List Nat} {cid : Option Value}
    (hp : StaProv E h) : StaProv E (mkTopology h ids cid).heap := by
  unfold mkTopology
  exact markControllerFoldl_prov ids (h, none) hp

theorem topo_bss_prov {E : List NBEntry} {t : Topology} (hp : StaProv E t.heap) :
    ∀ b ∈ t.get_bsses, BssProv E b := by
  intro b hb
  unfold Topology.get_bsses Topology.agentsList at hb
  rcases List.mem_flatMap.mp hb with ⟨a, ha, hb2⟩
  rcases List.mem_flatMap.mp hb2 with ⟨r, hr, hb3⟩
  rcases List.mem_map.mp ha with ⟨aid, _, rfl⟩
  exact StaProv_getAgent aid hp r hr b hb3

/-- C4.  (a) `station_has_undergone_move` is true iff a prior mapping exists
for the MAC and differs from the given RUID.  (b) When a prior mapping `R1`
exists and differs from the current `R2`, the per-station persistent step the
resolver runs (lines 149-151 of `nbapi.py`) appends the MAC to the moved
list and replaces the mapping by first deleting the old binding and then
setting `stationToRadio[mac] = R2`. -/
theorem c4_station_move_tracking :
    (∀ (ps : PState) (mac ruid : Value),
      station_has_undergone_move ps mac ruid = true ↔
        ∃ r, assocGet? ps.stationsToRadio mac = some r ∧ r ≠ ruid) ∧
    (∀ (ps : PState) (mac r1 r2 : Value),
      assocGet? ps.stationsToRadio mac = some r1 → r1 ≠ r2 →
        stationPStateStep ps mac r2 =
          { ps with
            stationsThatHaveMoved := ps.stationsThatHaveMoved ++ [mac],
            stationsToRadio := assocSet (assocDel ps.stationsToRadio mac) mac r2 }) := by
  constructor
  · intro ps mac ruid
    unfold station_has_undergone_move assocMem
    cases hget : assocGet? ps.stationsToRadio mac with
    | none => simp
    | some r => simp
  · intro ps mac r1 r2 hget hne
    have hmove : station_has_undergone_move ps mac r2 = true := by
      unfold station_has_undergone_move assocMem
      simp [hget, hne]
    unfold stationPStateStep
    rw [if_pos hmove]
    unfold handle_station_has_moved register_station_to_radio assocMem
    simp [hget]

/-- C4 witness: a station previously on "R1" showing up on "R2". -/
theorem c4_station_move_tracking_witness :
    (station_has_undergone_move c4PS (.vStr "S") (.vStr "R2") = true ↔
      ∃ r, assocGet? c4PS.stationsToRadio (.vStr "S") = some r ∧ r ≠ .vStr "R2") ∧
    stationPStateStep c4PS (.vStr "S") (.vStr "R2") =
      { c4PS with
        stationsThatHaveMoved := c4PS.stationsThatHaveMoved ++ [.vStr "S"],
        stationsToRadio :=
          assocSet (assocDel c4PS.stationsToRadio (.vStr "S")) (.vStr "S") (.vStr "R2") } :=
  ⟨c4_station_move_tracking.1 c4PS (.vStr "S") (.vStr "R2"),
   c4_station_move_tracking.2 c4PS (.vStr "S") (.vStr "R1") (.vStr "R2") rfl (by decide)⟩

/-- C5 amended.  `get_stations_that_have_moved` returns the pending moved
list *without clearing it* (a second call returns the same list); the
per-station consumer is `get_did_station_move`, which removes the queried MAC
so that, when the MAC was pending exactly once, a repeat query returns
false. -/
theorem c5_moved_list_semantics :
    (∀ ps : PState,
      (get_stations_that_have_moved ps).2 = ps ∧
      (get_stations_that_have_moved ((get_stations_that_have_moved ps).2)).1
        = (get_stations_that_have_moved ps).1) ∧
    (∀ (ps : PState) (mac : Value), mac ∈ ps.stationsThatHaveMoved →
      (get_did_station_move ps mac).1 = true ∧
      ((get_did_station_move ps mac).2).stationsThatHaveMoved
        = ps.stationsThatHaveMoved.erase mac) ∧
    (∀ (ps : PState) (mac : Value), ps.stationsThatHaveMoved.count mac = 1 →
      (get_did_station_move ((get_did_station_move ps mac).2) mac).1 = false) := by
  refine ⟨fun ps => ⟨rfl, rfl⟩, ?_, ?_⟩
  · intro ps mac hmem
    simp [get_did_station_move, get_stations_that_have_moved, hmem]
  · intro ps mac hcount
    have hmem : mac ∈ ps.stationsThatHaveMoved := by
      have : 0 < ps.stationsThatHaveMoved.count mac := by omega
      exact List.count_pos_iff.mp this
    have hz : (ps.stationsThatHaveMoved.erase mac).count mac = 0 := by
      rw [List.count_erase_self]
      omega
    have hnm : mac ∉ ps.stationsThatHaveMoved.erase mac :=
      List.count_eq_zero.mp hz
    simp [get_did_station_move, get_stations_that_have_moved, hmem, hnm]

/-- C5 amended witness: one pending move, consumed per station. -/
theorem c5_moved_list_semantics_witness :
    ((get_did_station_move c5PS (.vStr "55:55:55:55:55:55")).1 = true ∧
      ((get_did_station_move c5PS (.vStr "55:55:55:55:55:55")).2).stationsThatHaveMoved
        = c5PS.stationsThatHaveMoved.erase (.vStr "55:55:55:55:55:55")) ∧
    (get_did_station_move ((get_did_station_move c5PS (.vStr "55:55:55:55:55:55")).2)
        (.vStr "55:55:55:55:55:55")).1 = false :=
  ⟨c5_moved_list_semantics.2.1 c5PS (.vStr "55:55:55:55:55:55") (by decide),
   c5_moved_list_semantics.2.2 c5PS (.vStr "55:55:55:55:55:55") (by decide)⟩

/-- C6.  The RSSI store is append-only: one measurement appends exactly one
value at the end of the `(RUID, MAC)` series, leaves every other series
untouched, only the explicit reset empties the store, and three successive
single-reading cycles for one pair extend its series by those three values in
arrival order. -/
theorem c6_rssi_append_only :
    (∀ (ps : PState) (m r v : Value),
      rssiSeries (add_new_signal_strength_measurement ps m r v) r m
        = rssiSeries ps r m ++ [v]) ∧
    (∀ (ps : PState) (m r v r' m' : Value), r' ≠ r ∨ m' ≠ m →
      rssiSeries (add_new_signal_strength_measurement ps m r v) r' m'
        = rssiSeries ps r' m') ∧
    (∀ (ps : PState) (r' m' : Value),
      rssiSeries (clear_all_signal_strength_measurements ps) r' m' = []) ∧
    (∀ (ps : PState) (m r v1 v2 v3 : Value),
      rssiSeries
          (add_new_signal_strength_measurement
            (add_new_signal_strength_measurement
              (add_new_signal_strength_measurement ps m r v1) m r v2) m r v3) r m
        = rssiSeries ps r m ++ [v1, v2, v3]) := by
  have happ : ∀ (ps : PState) (m r v : Value),
      rssiSeries (add_new_signal_strength_measurement ps m r v) r m
        = rssiSeries ps r m ++ [v] := by
    intro ps m r v
    unfold rssiSeries add_new_signal_strength_measurement
    cases hr : assocGet? ps.rssiMeasurements r with
    | none =>
      simp [hr, assocGet?_set_self, assocGet?]
    | some d =>
      cases hm : assocGet? d m with
      | none => simp [hr, hm, assocGet?_set_self]
      | some l => simp [hr, hm, assocGet?_set_self]
  refine ⟨happ, ?_, ?_, ?_⟩
  · intro ps m r v r' m' hne
    unfold rssiSeries add_new_signal_strength_measurement
    rcases hne with hr' | hm'
    · simp [assocGet?_set_ne _ _ _ _ hr']
    · by_cases hr : r' = r
      · subst hr
        cases hrr : assocGet? ps.rssiMeasurements r' with
        | none =>
          simp [hrr, assocGet?_set_self, assocGet?_set_ne _ _ _ _ hm', assocGet?,
            Ne.symm hm']
        | some d => simp [hrr, assocGet?_set_self, assocGet?_set_ne _ _ _ _ hm']
      · simp [assocGet?_set_ne _ _ _ _ hr]
  · intro ps r' m'
    simp [rssiSeries, clear_all_signal_strength_measurements, assocGet?]
  · intro ps m r v1 v2 v3
    rw [happ, happ, happ]
    simp

/-- C3 amended.  For any record with a `MediaType` value, construction
succeeds and classifies: wireless (`wireless = 1`, `wired = 0`) exactly when
the value is the string `IEEE_802_11N_2_4_GHZ` or the string `IEEE_802_11AX`,
and wired (`wired = 1`, `wireless = 0`) for every other value — numeric
codes, the 802.11 range 0x100-0x108 included, classify as wired. -/
theorem c3_classification_amended (path : NBPath) (ps : Params) (mt : Value)
    (hmt : paramsGet? ps "MediaType" = some mt) :
    (mkInterface path ps).map
        (fun I => (paramsGet? I.params "wireless", paramsGet? I.params "wired"))
      = .ok (if mt = .vStr "IEEE_802_11N_2_4_GHZ" ∨ mt = .vStr "IEEE_802_11AX"
             then (some (.vInt 1), some (.vInt 0))
             else (some (.vInt 0), some (.vInt 1))) := by
  by_cases hc : mt = .vStr "IEEE_802_11N_2_4_GHZ" ∨ mt = .vStr "IEEE_802_11AX"
  · have hcond : (mt == Value.vStr "IEEE_802_11N_2_4_GHZ"
        || mt == Value.vStr "IEEE_802_11AX") = true := by
      rcases hc with h | h <;> simp [h]
    simp only [mkInterface, paramsGetE, hmt, hcond, if_true, hc, Except.map,
      Except.bind, bind, pure, Except.pure]
    rw [paramsGet?_set_self, paramsGet?_set_ne _ _ _ _ (by decide), paramsGet?_set_self]
  · have hcond : (mt == Value.vStr "IEEE_802_11N_2_4_GHZ"
        || mt == Value.vStr "IEEE_802_11AX") = false := by
      push_neg at hc
      simp [hc.1, hc.2]
    simp only [mkInterface, paramsGetE, hmt, hcond, if_false, hc, Except.map,
      Except.bind, bind, pure, Except.pure, Bool.false_eq_true]
    rw [paramsGet?_set_self, paramsGet?_set_ne _ _ _ _ (by decide), paramsGet?_set_self]

/-- C3 amended witness: the string code `IEEE_802_11AX` classifies wireless,
the numeric code 0x104 classifies wired. -/
theorem c3_classification_amended_witness :
    (mkInterface ["x", "Interface", "1", ""] [("MediaType", .vStr "IEEE_802_11AX")]).map
        (fun I => (paramsGet? I.params "wireless", paramsGet? I.params "wired"))
      = .ok (if (Value.vStr "IEEE_802_11AX") = .vStr "IEEE_802_11N_2_4_GHZ" ∨
               (Value.vStr "IEEE_802_11AX") = .vStr "IEEE_802_11AX"
             then (some (.vInt 1), some (.vInt 0))
             else (some (.vInt 0), some (.vInt 1))) ∧
    (mkInterface ["x", "Interface", "1", ""] [("MediaType", .vInt 0x104)]).map
        (fun I => (paramsGet? I.params "wireless", paramsGet? I.params "wired"))
      = .ok (if (Value.vInt 0x104) = .vStr "IEEE_802_11N_2_4_GHZ" ∨
               (Value.vInt 0x104) = .vStr "IEEE_802_11AX"
             then (some (.vInt 1), some (.vInt 0))
             else (some (.vInt 0), some (.vInt 1))) :=
  ⟨c3_classification_amended ["x", "Interface", "1", ""] _ _ rfl,
   c3_classification_amended ["x", "Interface", "1", ""] _ _ rfl⟩

/-- C6 witness: three readings for one pair on the empty store, one for
another pair, and a reset. -/
theorem c6_rssi_append_only_witness :
    rssiSeries
        (add_new_signal_strength_measurement
          (add_new_signal_strength_measurement
            (add_new_signal_strength_measurement PState.empty (.vStr "S") (.vStr "R") (.vInt (-40)))
            (.vStr "S") (.vStr "R") (.vInt (-42))) (.vStr "S") (.vStr "R") (.vInt (-45)))
        (.vStr "R") (.vStr "S")
      = [.vInt (-40), .vInt (-42), .vInt (-45)] ∧
    rssiSeries
        (add_new_signal_strength_measurement PState.empty (.vStr "S") (.vStr "R") (.vInt (-40)))
        (.vStr "R") (.vStr "S2")
      = rssiSeries PState.empty (.vStr "R") (.vStr "S2") := by
  constructor
  · rw [c6_rssi_append_only.2.2.2 PState.empty (.vStr "S") (.vStr "R")]
    rfl
  · exact c6_rssi_append_only.2.1 PState.empty (.vStr "S") (.vStr "R") (.vInt (-40))
      (.vStr "R") (.vStr "S2") (Or.inr (by decide))

theorem marshall_bss_prov {entries : List NBEntry} {ps : PState}
    {topo : Topology} {ps' : PState}
    (heq : marshall_nbapi_blob (.list entries) ps = .ok (topo, ps')) :
    ∀ b ∈ topo.get_bsses, BssProv entries b := by
  unfold marshall_nbapi_blob at heq
  simp only [] at heq
  cases hm : marshallEntries (MState.init ps) entries with
  | error e => rw [hm] at heq; cases heq
  | ok st =>
    rw [hm] at heq
    simp only [] at heq
    cases hc : st.controllerId with
    | none => rw [hc] at heq; cases heq
    | some cid =>
      rw [hc] at heq
      simp only [Except.ok.injEq, Prod.mk.injEq] at heq
      obtain ⟨h1, h2⟩ := heq
      subst h1
      have hp0 : StaProv entries (MState.init ps).heap := by
        intro a ha
        exact absurd ha (List.not_mem_nil a)
      exact topo_bss_prov (mkTopology_prov (marshallEntries_prov hp0 hm))

/-- C8 (amended).  Station-MAC uniqueness across BSSes holds conditionally:
if the resolver succeeds on a list of records in which at most one STA record
carries any given defaulted `MACAddress`, and no two BSS paths of the
resulting topology are string-prefix-comparable (dot included), then no MAC
is listed as a connected station of two distinct BSSes.  The proof traces
every connected station back to the STA record that produced it (provenance
through all resolver stages); two BSSes holding the same MAC would share one
record, whose path extends both BSS paths, making them comparable. -/
theorem c8_station_uniqueness_amended {entries : List NBEntry} {ps : PState}
    {topo : Topology} {ps' : PState}
    (hres : marshall_nbapi_blob (.list entries) ps = .ok (topo, ps'))
    (hmac1 : ∀ e1 ∈ entries, ∀ e2 ∈ entries,
      matchSegIdx "STA" e1.path = true → matchSegIdx "STA" e2.path = true →
      staMacParam e1 = staMacParam e2 → e1 = e2)
    (hpaths : ∀ i, (hi : i < topo.get_bsses.length) → ∀ j,
      (hj : j < topo.get_bsses.length) → i ≠ j →
      bssPathsOverlap (topo.get_bsses.get ⟨i, hi⟩).path
        (topo.get_bsses.get ⟨j, hj⟩).path = false) :
    ∀ (mac : Value) (i j : Nat) (hi : i < topo.get_bsses.length)
      (hj : j < topo.get_bsses.length),
      mac ∈ bssStaMacs (topo.get_bsses.get ⟨i, hi⟩) →
      mac ∈ bssStaMacs (topo.get_bsses.get ⟨j, hj⟩) → i = j := by
  intro mac i j hi hj hmi hmj
  by_contra hne
  have hprov := marshall_bss_prov hres
  have hB1 : BssProv entries (topo.get_bsses.get ⟨i, hi⟩) :=
    hprov _ (List.get_mem _ _ _)
  have hB2 : BssProv entries (topo.get_bsses.get ⟨j, hj⟩) :=
    hprov _ (List.get_mem _ _ _)
  simp only [bssStaMacs] at hmi hmj
  rcases List.mem_map.mp hmi with ⟨s1, hs1, hmac_s1⟩
  rcases List.mem_map.mp hmj with ⟨s2, hs2, hmac_s2⟩
  have hP1 := hB1 s1 hs1
  have hP2 := hB2 s2 hs2
  unfold ProvOf at hP1 hP2
  rcases hP1 with ⟨e1, he1, hm1, hpre1, hp1, hq1⟩
  rcases hP2 with ⟨e2, he2, hm2, hpre2, hp2, hq2⟩
  have hmac_e1 : staMacParam e1 = mac := by
    rw [← hmac_s1]
    unfold staMacParam Station.get_mac
    rw [hq1]
  have hmac_e2 : staMacParam e2 = mac := by
    rw [← hmac_s2]
    unfold staMacParam Station.get_mac
    rw [hq2]
  have hee : e1 = e2 := hmac1 e1 he1 e2 he2 hm1 hm2 (by rw [hmac_e1, hmac_e2])
  have hpfx1 : (topo.get_bsses.get ⟨i, hi⟩).path.dropLast <+: e1.path := by
    unfold pathStartsWith at hpre1
    exact List.isPrefixOf_iff_prefix.mp hpre1
  have hpfx2 : (topo.get_bsses.get ⟨j, hj⟩).path.dropLast <+: e1.path := by
    rw [hee]
    unfold pathStartsWith at hpre2
    exact List.isPrefixOf_iff_prefix.mp hpre2
  have hov : bssPathsOverlap (topo.get_bsses.get ⟨i, hi⟩).path
      (topo.get_bsses.get ⟨j, hj⟩).path = true := by
    simp only [bssPathsOverlap, pathStartsWith, Bool.or_eq_true,
      List.isPrefixOf_iff_prefix]
    cases List.prefix_or_prefix_of_prefix hpfx1 hpfx2 with
    | inl h12 => exact Or.inr (h12.trans (List.dropLast_prefix _))
    | inr h21 => exact Or.inl (h21.trans (List.dropLast_prefix _))
  rw [hpaths i hi j hj hne] at hov
  cases hov

/-- Witness for the amended C8: the resolver succeeds on `c8wEntries` (two
BSSes, two STA records with distinct MACs), the two side conditions hold for
it, and the uniqueness conclusion follows by the theorem. -/
theorem c8_station_uniqueness_amended_witness :
    marshall_nbapi_blob (.list c8wEntries) PState.empty = .ok (c8wTopo, c8wPS) ∧
    (∀ e1 ∈ c8wEntries, ∀ e2 ∈ c8wEntries,
      matchSegIdx "STA" e1.path = true → matchSegIdx "STA" e2.path = true →
      staMacParam e1 = staMacParam e2 → e1 = e2) ∧
    (∀ i, (hi : i < c8wTopo.get_bsses.length) → ∀ j,
      (hj : j < c8wTopo.get_bsses.length) → i ≠ j →
      bssPathsOverlap (c8wTopo.get_bsses.get ⟨i, hi⟩).path
        (c8wTopo.get_bsses.get ⟨j, hj⟩).path = false) ∧
    (∀ (mac : Value) (i j : Nat) (hi : i < c8wTopo.get_bsses.length)
      (hj : j < c8wTopo.get_bsses.length),
      mac ∈ bssStaMacs (c8wTopo.get_bsses.get ⟨i, hi⟩) →
      mac ∈ bssStaMacs (c8wTopo.get_bsses.get ⟨j, hj⟩) → i = j) :=
  ⟨rfl, by decide, by decide,
    c8_station_uniqueness_amended
      (rfl : marshall_nbapi_blob (.list c8wEntries) PState.empty
        = .ok (c8wTopo, c8wPS))
      (by decide) (by decide)⟩

end TV
